import Mathlib

/-!
Verification model of the job-matching / candidate-ranking pipeline.

Python strings are modelled as `List Char` (`Str`), Python floats as `ℚ`
(the arithmetic identities claimed and implemented are exact, so rational
arithmetic is a faithful model), Python's stable `sorted` as
`List.insertionSort` (any stable sort agrees with it extensionally),
JSON dicts with a fixed key set as structures, and fallible calls
(`try`/`except`, model-service calls, schema validation) as
`Except Str α` results supplied by oracles.
-/

abbrev Str := List Char

/-- Coerce a Lean string literal to the `List Char` model of Python strings. -/
def str (s : String) : Str := s.data

/-- Model of Python `str.lower()` (ASCII case folding, as in the data handled). -/
def strLower (s : Str) : Str := s.map Char.toLower

/-- Drop leading whitespace, model of the left half of Python `str.strip()`. -/
def dropWs : Str → Str
  | [] => []
  | c :: cs => if c.isWhitespace then dropWs cs else c :: cs

/-- Model of Python `str.strip()`. -/
def strTrim (s : Str) : Str := ((dropWs ((dropWs s.reverse)).reverse))

/-- Model of Python `str.split()` with no argument: split on whitespace runs,
dropping empty fragments. -/
def splitWs (s : Str) : List Str :=
  let step : Char → (Str × List Str) → (Str × List Str) := fun c acc =>
    if c.isWhitespace then
      if acc.1.isEmpty then acc else ([], acc.1 :: acc.2)
    else (c :: acc.1, acc.2)
  let r := s.foldr step ([], [])
  if r.1.isEmpty then r.2 else r.1 :: r.2

/-- Model of Python's substring test `needle in hay`. -/
def containsSub (needle : Str) : Str → Bool
  | [] => needle.isEmpty
  | c :: cs => needle.isPrefixOf (c :: cs) || containsSub needle cs

/-- Model of Django's `__icontains` lookup: case-insensitive substring. -/
def icontains (hay needle : Str) : Bool := containsSub (strLower needle) (strLower hay)

/-- Decimal rendering of a natural number (for interpolated messages). -/
def strOfNat (n : Nat) : Str := Nat.toDigits 10 n

/-- Truthiness of a Python string: the empty string is falsy. -/
def strTruthy (s : Str) : Bool := !s.isEmpty

/-- `clamp_score` from `services/agents/contracts.py`:
`max(0.0, min(1.0, float(value)))`. -/
def clamp_score (value : ℚ) : ℚ := max 0 (min 1 value)

/-- Model of Python `round(x, 2)`. Every value the pipeline rounds is an
exact multiple of 1/100, where every rounding convention agrees. -/
def round2 (q : ℚ) : ℚ := (round (q * 100) : ℤ) / 100

/-- Lexicographic comparison combinator: order first by the key `k`
(strictly), and on key ties defer to `tail`. Chaining `lex2` models
comparison of Python sort-key tuples. -/
def lex2 {α K : Type} [LinearOrder K] (k : α → K) (tail : α → α → Prop) (a b : α) : Prop :=
  k a < k b ∨ (k a = k b ∧ tail a b)

instance {α K : Type} [LinearOrder K] (k : α → K) (tail : α → α → Prop)
    [DecidableRel tail] : DecidableRel (lex2 k tail) := by
  intro a b
  unfold lex2
  infer_instance

theorem lex2_total {α K : Type} [LinearOrder K] (k : α → K) (tail : α → α → Prop)
    (ht : ∀ a b, tail a b ∨ tail b a) (a b : α) : lex2 k tail a b ∨ lex2 k tail b a := by
  rcases lt_trichotomy (k a) (k b) with h | h | h
  · exact Or.inl (Or.inl h)
  · rcases ht a b with h2 | h2
    · exact Or.inl (Or.inr ⟨h, h2⟩)
    · exact Or.inr (Or.inr ⟨h.symm, h2⟩)
  · exact Or.inr (Or.inl h)

theorem lex2_trans {α K : Type} [LinearOrder K] (k : α → K) (tail : α → α → Prop)
    (ht : ∀ a b c, tail a b → tail b c → tail a c) (a b c : α)
    (hab : lex2 k tail a b) (hbc : lex2 k tail b c) : lex2 k tail a c := by
  rcases hab with h1 | ⟨h1, t1⟩
  · rcases hbc with h2 | ⟨h2, _⟩
    · exact Or.inl (h1.trans h2)
    · exact Or.inl (h2 ▸ h1)
  · rcases hbc with h2 | ⟨h2, t2⟩
    · exact Or.inl (h1 ▸ h2)
    · exact Or.inr ⟨h1.trans h2, ht a b c t1 t2⟩

/-!
Candidate-ranking data model
(`job_search/services/candidate_ranking/`, `job_search/models.py`).
-/

/-- One candidate of a job (`JobCandidate` model). `resume_sections` models
the already-parsed `sections` object of the `resume_data` JSON blob
(`_safe_json_loads` plus the `sections` lookup); `created_at` is the
creation timestamp as an ordinal. -/
structure JobCandidate where
  id : Nat
  name : Str
  email : Str
  resume_sections : List (Str × List Str)
  created_at : Nat
deriving DecidableEq, Repr

/-- A recruiter rule for one coding-platform metric
(`coding_platform_criteria` entries). `value` is `none` when Python
`float(rule.get('value'))` would raise (missing or non-numeric). -/
structure CodingRule where
  platform : Str
  metric : Str
  operator : Str
  value : Option ℚ
deriving DecidableEq, Repr

/-- `RecruiterJobPreference` model, plus the owning job's description
(read by the fit-scoring stage via `recruiter_preference.job`). -/
structure RecruiterPref where
  college_tiers : List Str
  min_experience_years : ℚ
  max_experience_years : ℚ
  coding_platform_criteria : List CodingRule
  number_of_openings : Nat
  job_description : Str
deriving DecidableEq, Repr

/-- The `normalized_candidate` payload produced by stage A. -/
structure NormalizedCandidate where
  name : Str
  email : Str
  education_text : Str
  experience_text : Str
  projects_text : Str
  skills_text : Str
  raw_sections : List (Str × List Str)
deriving DecidableEq, Repr

/-- The empty dict used for `normalized` when stage A fell back
(`normalized_out.get('normalized_candidate') if ok_norm else {}`):
every downstream `.get(key, '')` yields the empty string. -/
def emptyNormalized : NormalizedCandidate :=
  ⟨[], [], [], [], [], [], []⟩

/-- Stage A output schema (`{'normalized_candidate': ...}`). -/
structure StageAOut where
  normalized_candidate : NormalizedCandidate
deriving DecidableEq, Repr

/-- Stage B output schema (college-tier classification). -/
structure StageBOut where
  college_tier : Str
  confidence : ℚ
  evidence : List Str
  cache_hit : Bool
deriving DecidableEq, Repr

/-- Stage C output schema (experience extraction). -/
structure StageCOut where
  years_of_experience : ℚ
  experience_band : Str
  confidence : ℚ
  evidence : List Str
deriving DecidableEq, Repr

/-- One extracted coding-platform signal. -/
structure PlatformSignal where
  platform : Str
  metric : Str
  value : ℚ
deriving DecidableEq, Repr

/-- One rule comparison produced by stage D (`matched` is the only field
read downstream; the `reason`/`found_value` annotations are carried in
`note`). -/
structure RuleComparison where
  rule : CodingRule
  matched : Bool
  note : Str
deriving DecidableEq, Repr

/-- Stage D output schema. -/
structure StageDOut where
  extracted_platform_signals : List PlatformSignal
  criteria_comparisons : List RuleComparison
deriving DecidableEq, Repr

/-- Stage E output schema (hard filter). -/
structure StageEOut where
  passes_hard_filter : Bool
  rejected_reasons : List Str
deriving DecidableEq, Repr

/-- The `sub_scores` dict of stage F. -/
structure SubScores where
  education_fit : ℚ
  experience_fit : ℚ
  coding_fit : ℚ
  jd_relevance : ℚ
deriving DecidableEq, Repr

/-- Stage F output schema (fit scoring). -/
structure StageFOut where
  sub_scores : SubScores
  final_score : ℚ
  summary : Str
deriving DecidableEq, Repr

/-- `sections.get(key) or []` lookup used by `_normalize_resume`. -/
def getSection (sections : List (Str × List Str)) (key : Str) : List Str :=
  match sections.lookup key with
  | some v => v
  | none => []

/-- `_normalize_resume` from `stages.py`: joins each section's lines with
newlines. -/
def normalize_resume (c : JobCandidate) : NormalizedCandidate :=
  { name := c.name
    email := c.email
    education_text := List.intercalate (str "\n") (getSection c.resume_sections (str "Education"))
    experience_text := List.intercalate (str "\n") (getSection c.resume_sections (str "Experience"))
    projects_text := List.intercalate (str "\n") (getSection c.resume_sections (str "Projects"))
    skills_text := List.intercalate (str "\n") (getSection c.resume_sections (str "Technical Skills"))
    raw_sections := c.resume_sections }

/-- `candidate_normalizer_agent` from `stages.py`. -/
def candidate_normalizer_agent (c : JobCandidate) : StageAOut :=
  ⟨normalize_resume c⟩

/-- The comparison of one recruiter rule against the extracted signals,
the loop body of `coding_profile_signal_agent`. -/
def compare_rule (extracted : List PlatformSignal) (rule : CodingRule) : RuleComparison :=
  let platform := strLower (strTrim rule.platform)
  let metric := strLower (strTrim rule.metric)
  let operator := strLower (strTrim rule.operator)
  match rule.value with
  | none => ⟨rule, false, str "invalid_rule"⟩
  | some target =>
    match extracted.find? (fun s => strLower s.platform = platform ∧ strLower s.metric = metric) with
    | none => ⟨rule, false, str "signal_not_found"⟩
    | some signal =>
      let matched :=
        if operator = str "gte" then decide (signal.value ≥ target)
        else if operator = str "lte" then decide (signal.value ≤ target)
        else if operator = str "eq" then decide (signal.value = target)
        else false
      ⟨rule, matched, str "found_value"⟩

/-- `coding_profile_signal_agent` from `stages.py`. The regex extraction of
codeforces/leetcode signals from the profile text is an input here
(`extracted`); the rule-comparison loop is modelled from the source. -/
def coding_profile_signal_agent (extracted : List PlatformSignal)
    (recruiter_preference : RecruiterPref) : StageDOut :=
  { extracted_platform_signals := extracted
    criteria_comparisons := recruiter_preference.coding_platform_criteria.map (compare_rule extracted) }

/-- `hard_filter_agent` from `stages.py`: boolean AND of tier membership,
experience-range membership and all coding-rule comparisons, accumulating
reject reasons in source order. -/
def hard_filter_agent (recruiter_preference : RecruiterPref) (college_tier_output : StageBOut)
    (experience_output : StageCOut) (coding_output : StageDOut) : StageEOut :=
  let tier := college_tier_output.college_tier
  let tierOk := recruiter_preference.college_tiers.contains tier
  let years := experience_output.years_of_experience
  let expOk := ¬(years < recruiter_preference.min_experience_years ∨
      years > recruiter_preference.max_experience_years)
  let comparisons := coding_output.criteria_comparisons
  let codingOk := comparisons.all (·.matched)
  { passes_hard_filter := tierOk && decide expOk && codingOk
    rejected_reasons :=
      (if tierOk then [] else [str "College tier mismatch: " ++ tier]) ++
      (if expOk then [] else [str "Experience outside preferred range"]) ++
      (if comparisons ≠ [] ∧ ¬comparisons.all (·.matched) then [str "Coding criteria mismatch"] else []) }

/-- `fit_scoring_agent` from `stages.py`: short-circuits to the all-zero
rejected shape when the hard filter failed, otherwise computes the
weighted composite rounded to two decimals. -/
def fit_scoring_agent (normalized_candidate : NormalizedCandidate)
    (hard_filter_output : StageEOut) (college_tier_output : StageBOut)
    (experience_output : StageCOut) (coding_output : StageDOut)
    (recruiter_preference : RecruiterPref) : StageFOut :=
  if ¬hard_filter_output.passes_hard_filter then
    { sub_scores := ⟨0, 0, 0, 0⟩
      final_score := 0
      summary := str "Rejected by hard filters" }
  else
    let education_fit : ℚ :=
      if recruiter_preference.college_tiers.contains college_tier_output.college_tier then 100 else 0
    let years := experience_output.years_of_experience
    let experience_fit : ℚ :=
      if recruiter_preference.min_experience_years ≤ years ∧
          years ≤ recruiter_preference.max_experience_years then 100 else 0
    let comparisons := coding_output.criteria_comparisons
    let coding_fit : ℚ :=
      if comparisons ≠ [] then
        (⌊(100 : ℚ) * (comparisons.countP (·.matched) : ℚ) / (comparisons.length : ℚ)⌋ : ℤ)
      else 70
    let jd_text := strLower recruiter_preference.job_description
    let profile_text :=
      strLower normalized_candidate.skills_text ++ [' '] ++ strLower normalized_candidate.projects_text
    let jd_hits :=
      (((splitWs jd_text).take 40).eraseDups).countP
        (fun token => token.length > 3 && containsSub token profile_text)
    let jd_relevance : ℚ := min 100 (5 * jd_hits)
    let final_score := round2 ((25 : ℚ)/100 * education_fit + (25 : ℚ)/100 * experience_fit +
      (30 : ℚ)/100 * coding_fit + (20 : ℚ)/100 * jd_relevance)
    { sub_scores := ⟨education_fit, experience_fit, coding_fit, jd_relevance⟩
      final_score := final_score
      summary := str "Composite candidate fit score" }

/-!
Stage retry/fallback envelope
(`candidate_ranking/orchestrator.py`).
-/

/-- `STAGE_MAX_ATTEMPTS = STAGE_MAX_RETRIES + 1`, with the retry count `K`
configured by environment (`CANDIDATE_AI_STAGE_RETRIES`, default 2). -/
def STAGE_MAX_ATTEMPTS (retries : Nat) : Nat := retries + 1

/-- Status values of an `AgentTraceEvent`. -/
inductive TraceStatus where
  | SUCCESS
  | FAILED
  | SKIPPED
deriving DecidableEq, Repr

/-- One persisted `AgentTraceEvent` (`_persist_trace`); the request/response
payloads and wall-clock latency are externals, the schema-relevant fields
(`attempt`, `max_attempts`, `fallback_applied`) are kept. -/
structure TraceEvent where
  agent_name : Str
  stage : Str
  candidate_id : Option Nat
  status : TraceStatus
  attempt : Nat
  max_attempts : Nat
  fallback_applied : Bool
  error_code : Str
  error_message : Str
deriving DecidableEq, Repr

/-- The result 4-tuple of `_execute_stage_with_retry`, plus the trace
events it persisted. -/
structure StageRunResult (α : Type) where
  output : α
  ok : Bool
  attempts : Nat
  fallback_applied : Bool
  traces : List TraceEvent
deriving Repr

/-- The attempt loop of `_execute_stage_with_retry`: try `fn` for
`remaining` more attempts starting at attempt number `attempt`,
persisting one trace event per attempt. A `fn` failure models both a
raised exception and a stage-output schema violation
(`_validate_stage_output`), which the source converts into a raised
`ValueError` inside the same `except` envelope. -/
def stage_attempt_loop {α : Type} (stage agent : Str) (cid : Option Nat) (maxAttempts : Nat)
    (fn : Nat → Except Str α) : Nat → Nat → Option (α × Nat) × List TraceEvent
  | _, 0 => (none, [])
  | attempt, remaining + 1 =>
    match fn attempt with
    | .ok out =>
      (some (out, attempt),
        [⟨agent, stage, cid, .SUCCESS, attempt, maxAttempts, false, [], []⟩])
    | .error msg =>
      let rest := stage_attempt_loop stage agent cid maxAttempts fn (attempt + 1) remaining
      (rest.1, ⟨agent, stage, cid, .FAILED, attempt, maxAttempts, false,
        str "AGENT_STAGE_ERROR", msg⟩ :: rest.2)

/-- The final SKIPPED trace event persisted when a stage falls back. -/
def fallback_trace (stage agent : Str) (cid : Option Nat) (maxAttempts : Nat) : TraceEvent :=
  ⟨agent, stage, cid, .SKIPPED, maxAttempts, maxAttempts, true,
    str "STAGE_FALLBACK_APPLIED",
    str "All " ++ strOfNat maxAttempts ++ str " attempts failed."⟩

/-- `_execute_stage_with_retry`: up to `maxAttempts` attempts; on first
success return the output, otherwise substitute `fallback` and persist a
final SKIPPED trace event marking the fallback. -/
def execute_stage_with_retry {α : Type} (maxAttempts : Nat) (stage agent : Str)
    (cid : Option Nat) (fn : Nat → Except Str α) (fallback : α) : StageRunResult α :=
  match (stage_attempt_loop stage agent cid maxAttempts fn 1 maxAttempts).1 with
  | some (out, attempt) =>
    ⟨out, true, attempt, false, (stage_attempt_loop stage agent cid maxAttempts fn 1 maxAttempts).2⟩
  | none =>
    ⟨fallback, false, maxAttempts, true,
      (stage_attempt_loop stage agent cid maxAttempts fn 1 maxAttempts).2 ++
        [fallback_trace stage agent cid maxAttempts]⟩

/-- `_stage_fallback` for stage A. -/
def stage_fallback_a (candidate : JobCandidate) : StageAOut :=
  ⟨⟨candidate.name, candidate.email, [], [], [], [], []⟩⟩

/-- `_stage_fallback` for stage B. -/
def stage_fallback_b : StageBOut :=
  ⟨str "UNKNOWN", 0, [str "stage_fallback"], false⟩

/-- `_stage_fallback` for stage C. -/
def stage_fallback_c : StageCOut :=
  ⟨0, str "0 years", 0, [str "stage_fallback"]⟩

/-- `_stage_fallback` for stage D. -/
def stage_fallback_d : StageDOut :=
  ⟨[], []⟩

/-- `_stage_fallback` for stage E. -/
def stage_fallback_e : StageEOut :=
  ⟨false, [str "hard_filter_fallback"]⟩

/-- `_stage_fallback` for stage F. -/
def stage_fallback_f : StageFOut :=
  ⟨⟨0, 0, 0, 0⟩, 0, str "fit_scoring_fallback"⟩

/-!
Candidate-ranking orchestrator
(`run_candidate_ranking_for_run` and `ranker_agent`).
-/

/-- Per-candidate stage behaviors: each stage's `fn` closure is a function
of the attempt number that either returns an output of the stage's schema
or fails (exception or schema violation). Stages B–F receive the data the
orchestrator's closures capture. The pure agents of `stages.py` are
particular values of these oracles; modelling them as oracles also covers
failures of their external collaborators (model service, cache, database). -/
structure StageOracle where
  a : Nat → Except Str StageAOut
  b : NormalizedCandidate → Nat → Except Str StageBOut
  c : NormalizedCandidate → Nat → Except Str StageCOut
  d : NormalizedCandidate → Nat → Except Str StageDOut
  e : StageBOut → StageCOut → StageDOut → Nat → Except Str StageEOut
  f : NormalizedCandidate → StageEOut → StageBOut → StageCOut → StageDOut →
      Nat → Except Str StageFOut

/-- One entry of `scored_rows` (with `rank`/`is_shortlisted` filled in by
the ranker). -/
structure ScoredRow where
  candidate : JobCandidate
  passes_hard_filter : Bool
  filter_reasons : List Str
  final_score : ℚ
  sub_scores : SubScores
  summary : Str
  rank : Nat := 0
  is_shortlisted : Bool := false
deriving DecidableEq, Repr

/-- The six-stage chain for one candidate: the per-candidate body of the
batch loop of `run_candidate_ranking_for_run`, producing its
`scored_rows` entry and the persisted trace events. -/
def process_candidate (maxAttempts : Nat) (o : StageOracle) (c : JobCandidate) :
    ScoredRow × List TraceEvent :=
  let ra := execute_stage_with_retry maxAttempts (str "A") (str "CandidateNormalizerAgent")
    (some c.id) o.a (stage_fallback_a c)
  let normalized := if ra.ok then ra.output.normalized_candidate else emptyNormalized
  let rb := execute_stage_with_retry maxAttempts (str "B") (str "CollegeTierClassifierAgent")
    (some c.id) (o.b normalized) stage_fallback_b
  let rc := execute_stage_with_retry maxAttempts (str "C") (str "ExperienceExtractionAgent")
    (some c.id) (o.c normalized) stage_fallback_c
  let rd := execute_stage_with_retry maxAttempts (str "D") (str "CodingProfileSignalAgent")
    (some c.id) (o.d normalized) stage_fallback_d
  let re := execute_stage_with_retry maxAttempts (str "E") (str "HardFilterAgent")
    (some c.id) (o.e rb.output rc.output rd.output) stage_fallback_e
  let rf := execute_stage_with_retry maxAttempts (str "F") (str "FitScoringAgent")
    (some c.id) (o.f normalized re.output rb.output rc.output rd.output) stage_fallback_f
  (⟨c, re.output.passes_hard_filter, re.output.rejected_reasons, rf.output.final_score,
      rf.output.sub_scores, rf.output.summary, 0, false⟩,
    ra.traces ++ rb.traces ++ rc.traces ++ rd.traces ++ re.traces ++ rf.traces)

/-- The candidate ranker's sort key: final score descending, coding-fit
descending, experience-fit descending, then creation time ascending. -/
def cand_rank_le : ScoredRow → ScoredRow → Prop :=
  lex2 (fun r => -r.final_score)
    (lex2 (fun r => -r.sub_scores.coding_fit)
      (lex2 (fun r => -r.sub_scores.experience_fit)
        (fun a b => a.candidate.created_at ≤ b.candidate.created_at)))

instance : DecidableRel cand_rank_le := by
  unfold cand_rank_le
  infer_instance

/-- `enumerate(ranked, start=i)`: assign rank `i`, `i+1`, … and the
shortlist flag `rank ≤ openings`. -/
def assign_ranks (openings : Nat) : Nat → List ScoredRow → List ScoredRow
  | _, [] => []
  | i, r :: rs =>
    { r with rank := i, is_shortlisted := decide (i ≤ openings) } :: assign_ranks openings (i + 1) rs

/-- `ranker_agent` from `stages.py`: stable sort by `cand_rank_le`, then
1-based rank assignment and shortlist marking. -/
def ranker_agent (scored_rows : List ScoredRow) (openings : Nat) : List ScoredRow :=
  assign_ranks openings 1 (List.insertionSort cand_rank_le scored_rows)

/-- The ranker fallback's sort key (`except` branch of the orchestrator):
candidate creation time ascending, then id ascending. -/
def cand_fallback_le : ScoredRow → ScoredRow → Prop :=
  lex2 (fun r => r.candidate.created_at) (fun a b => a.candidate.id ≤ b.candidate.id)

instance : DecidableRel cand_fallback_le := by
  unfold cand_fallback_le
  infer_instance

/-- The `except` branch around `ranker_agent` in the orchestrator: order
strictly by creation time then id, with the same rank assignment. -/
def ranker_fallback (scored_rows : List ScoredRow) (openings : Nat) : List ScoredRow :=
  assign_ranks openings 1 (List.insertionSort cand_fallback_le scored_rows)

/-- Status enum of `CandidateRankingRun`. -/
inductive CRStatus where
  | PENDING
  | RUNNING
  | COMPLETED
  | FAILED
deriving DecidableEq, Repr

/-- `CandidateRankingRun` model (fields the orchestrator reads or writes;
wall-clock timing metrics are external measurements and are not modelled). -/
structure CRRun where
  id : Nat
  status : CRStatus
  error_code : Str
  error_message : Str
  started_at : Option Nat
  completed_at : Option Nat
  model_name : Str
  total_candidates : Nat
  processed_candidates : Nat
  shortlisted_count : Nat
  batch_size : Nat
deriving DecidableEq, Repr

/-- One persisted `CandidateRankingResult` row. -/
structure CandidateRankingResult where
  run_id : Nat
  candidate_id : Nat
  rank : Nat
  is_shortlisted : Bool
  passes_hard_filter : Bool
  final_score : ℚ
  sub_scores : SubScores
  filter_reasons : List Str
  summary : Str
deriving DecidableEq, Repr

/-- Everything `run_candidate_ranking_for_run` leaves behind: the saved
run, the bulk-replaced result rows (`none` when the result table was not
touched), and the appended trace events. -/
structure CROutcome where
  run : CRRun
  results : Option (List CandidateRankingResult)
  traces : List TraceEvent

/-- `run_candidate_ranking_for_run` from
`candidate_ranking/orchestrator.py`. Inputs besides the run: the
recruiter preference looked up for the run's job (`none` when missing),
the job's candidates ordered by `(created_at, id)` as the source queries
them, the per-candidate stage oracles, whether `ranker_agent` raised
(`except` branch), the configured attempt bound, and the wall-clock
`now`. The batch loop only partitions the same ordered candidate list, so
it is modelled as one pass in order. -/
def run_candidate_ranking_for_run (maxAttempts : Nat) (run : CRRun)
    (pref : Option RecruiterPref) (candidates : List JobCandidate)
    (oracle : JobCandidate → StageOracle) (rankerRaised : Bool) (modelName : Str)
    (now : Nat) : CROutcome :=
  if run.status = .COMPLETED ∨ run.status = .FAILED then
    ⟨run, none, []⟩
  else
    match pref with
    | none =>
      ⟨{ run with
          status := .FAILED
          error_code := str "MISSING_PREFERENCE"
          error_message := str "Recruiter preference not found for the job."
          completed_at := some now }, none, []⟩
    | some pref =>
      let processed := candidates.map (fun c => process_candidate maxAttempts (oracle c) c)
      let scored_rows := processed.map Prod.fst
      let traces := (processed.map Prod.snd).flatten
      let ranked :=
        if rankerRaised then ranker_fallback scored_rows pref.number_of_openings
        else ranker_agent scored_rows pref.number_of_openings
      let results := ranked.map (fun row =>
        ({ run_id := run.id, candidate_id := row.candidate.id, rank := row.rank,
           is_shortlisted := row.is_shortlisted, passes_hard_filter := row.passes_hard_filter,
           final_score := row.final_score, sub_scores := row.sub_scores,
           filter_reasons := row.filter_reasons, summary := row.summary } : CandidateRankingResult))
      ⟨{ run with
          status := .COMPLETED
          started_at := some now
          model_name := modelName
          total_candidates := candidates.length
          processed_candidates := candidates.length
          shortlisted_count := (ranked.filter (·.is_shortlisted)).length
          completed_at := some now },
        some results, traces⟩

/-!
Job-matching data model and deterministic filter
(`job_search/models.py`, `services/preferences.py`, `services/filtering.py`).
-/

/-- `Job` model (fields read by filtering and scoring). `published_at` is a
nullable date as an ordinal, `created_at` a non-null timestamp ordinal;
`stipend_currency` is nullable. -/
structure Job where
  id : Nat
  job_id : Str
  title : Str
  description : Str
  company_name : Str
  location : Str
  work_mode : Str
  employment_type : Str
  internship_duration_weeks : Option Nat
  company_size : Str
  experience_level : Str
  sector : Str
  work_type : Str
  stipend_min : Option ℚ
  stipend_max : Option ℚ
  stipend_currency : Option Str
  apply_url : Str
  published_at : Option Int
  created_at : Int
deriving DecidableEq, Repr

/-- The preference payload consumed by `normalize_preferences` and
`filter_jobs` (a `JobPreference` snapshot). Optional text fields model
Python falsy defaults by the empty string. -/
structure Preferences where
  work_mode : Str
  employment_type : Str
  internship_duration_weeks : Option Nat
  location : Str
  company_size_preference : Str
  experience_level : Str
  stipend_min : Option ℚ
  stipend_max : Option ℚ
  stipend_currency : Str
  preferred_sectors : List Str
  excluded_sectors : List Str
  preferred_roles : List Str
  excluded_keywords : List Str
  excluded_companies : List Str
  preferred_companies : List Str
  weights : List (Str × ℚ)
deriving DecidableEq, Repr

/-- `normalize_preferences` from `services/preferences.py`: lowercases and
strips the location and the six list fields, and defaults the stipend
currency to INR when falsy. -/
def normalize_preferences (p : Preferences) : Preferences :=
  { p with
    location := strLower (strTrim p.location)
    stipend_currency := if strTruthy p.stipend_currency then p.stipend_currency else str "INR"
    preferred_sectors := p.preferred_sectors.map (fun s => strLower (strTrim s))
    excluded_sectors := p.excluded_sectors.map (fun s => strLower (strTrim s))
    preferred_roles := p.preferred_roles.map (fun s => strLower (strTrim s))
    excluded_keywords := p.excluded_keywords.map (fun s => strLower (strTrim s))
    excluded_companies := p.excluded_companies.map (fun s => strLower (strTrim s))
    preferred_companies := p.preferred_companies.map (fun s => strLower (strTrim s)) }

/-- `MAX_AGENT_JOBS` from `services/filtering.py`. -/
def MAX_AGENT_JOBS : Nat := 300

/-- The stipend-overlap predicate of `filter_jobs`: both stipend bounds
present on the job, matching currency, and band overlap
`stipend_max ≥ pref_min ∧ stipend_min ≤ pref_max`. -/
def stipend_overlap_pred (prefs : Preferences) (j : Job) : Bool :=
  match j.stipend_min, j.stipend_max, j.stipend_currency with
  | some jmin, some jmax, some jcur =>
    jcur = prefs.stipend_currency &&
      decide (jmax ≥ prefs.stipend_min.getD 0) && decide (jmin ≤ prefs.stipend_max.getD 0)
  | _, _, _ => false

/-- The stipend stage of `filter_jobs`: applied only when both preference
bounds are present. -/
def stipend_filter (prefs : Preferences) (jobs : List Job) : List Job :=
  if prefs.stipend_min.isSome ∧ prefs.stipend_max.isSome then
    jobs.filter (stipend_overlap_pred prefs)
  else jobs

/-- The primary exact/substring predicates of `filter_jobs`. -/
def primary_filter_pred (prefs : Preferences) (j : Job) : Bool :=
  j.work_mode = prefs.work_mode && j.employment_type = prefs.employment_type &&
    icontains j.location prefs.location && j.company_size = prefs.company_size_preference

/-- Ordering key of `filter_jobs`: `order_by('-published_at','-created_at')`
(a missing publication date is modelled as ordinal 0, database placement
of NULLs being backend-specific). -/
def job_recency_le : Job → Job → Prop :=
  lex2 (fun j => -(j.published_at.getD 0)) (fun a b => -a.created_at ≤ -b.created_at)

instance : DecidableRel job_recency_le := by
  unfold job_recency_le
  infer_instance

/-- `filter_jobs` result: the capped ordered jobs, the pre-cap total and
the per-predicate metrics trail. -/
structure FilterResult where
  jobs : List Job
  total_considered : Nat
  deterministic_metrics : List (Str × Nat)

/-- `filter_jobs` from `services/filtering.py`, as a pure function of the
job catalog: exact-match predicates, conditional internship-duration
equality, stipend-band overlap, experience level, sector
exclusions/inclusions, keyword and company exclusions, recency ordering
and the 300-job cap, with a metrics entry after each applied stage. -/
def filter_jobs (prefs : Preferences) (catalog : List Job) : FilterResult :=
  let jobs1 := catalog.filter (primary_filter_pred prefs)
  let jobs2 :=
    if prefs.employment_type = str "INTERNSHIP" then
      jobs1.filter (fun j => j.internship_duration_weeks = prefs.internship_duration_weeks)
    else jobs1
  let jobs3 := stipend_filter prefs jobs2
  let jobs4 :=
    if strTruthy prefs.experience_level then
      jobs3.filter (fun j => j.experience_level = prefs.experience_level)
    else jobs3
  let jobs5 :=
    if prefs.excluded_sectors ≠ [] then
      jobs4.filter (fun j => prefs.excluded_sectors.all (fun s => !icontains j.sector s))
    else jobs4
  let jobs6 :=
    if prefs.preferred_sectors ≠ [] then
      jobs5.filter (fun j => prefs.preferred_sectors.any (fun s => icontains j.sector s))
    else jobs5
  let jobs7 :=
    if prefs.excluded_keywords ≠ [] then
      jobs6.filter (fun j => prefs.excluded_keywords.all (fun s => !icontains j.title s))
    else jobs6
  let jobs8 :=
    if prefs.excluded_companies ≠ [] then
      jobs7.filter (fun j => prefs.excluded_companies.all (fun s => !icontains j.company_name s))
    else jobs7
  let ordered := List.insertionSort job_recency_le jobs8
  let capped := ordered.take MAX_AGENT_JOBS
  { jobs := capped
    total_considered := ordered.length
    deterministic_metrics :=
      [(str "initial_count", catalog.length), (str "after_primary_filters", jobs1.length)] ++
      (if prefs.employment_type = str "INTERNSHIP" then
        [(str "after_internship_duration", jobs2.length)] else []) ++
      (if prefs.stipend_min.isSome ∧ prefs.stipend_max.isSome then
        [(str "after_stipend_overlap", jobs3.length)] else []) ++
      (if strTruthy prefs.experience_level then
        [(str "after_experience_level", jobs4.length)] else []) ++
      (if prefs.excluded_sectors ≠ [] then [(str "after_excluded_sectors", jobs5.length)] else []) ++
      (if prefs.preferred_sectors ≠ [] then [(str "after_preferred_sectors", jobs6.length)] else []) ++
      (if prefs.excluded_keywords ≠ [] then [(str "after_excluded_keywords", jobs7.length)] else []) ++
      (if prefs.excluded_companies ≠ [] then
        [(str "after_excluded_companies", jobs8.length)] else []) ++
      [(str "ordered_count", ordered.length), (str "capped_count", capped.length)] }

/-!
Heuristic scorer and model-refinement blender
(`services/agents/orchestrator.py`, `services/agents/gpt_scorer.py`,
`services/skill_matching.py`).
-/

/-- `DEFAULT_WEIGHTS` from `services/agents/orchestrator.py`. -/
structure Weights where
  work_mode : ℚ := 20/100
  location : ℚ := 20/100
  stipend : ℚ := 25/100
  company_size : ℚ := 10/100
  experience_level : ℚ := 10/100
  sector : ℚ := 5/100
  role_match : ℚ := 5/100
  company_preference : ℚ := 5/100
  skill_match : ℚ := 35/100
deriving DecidableEq, Repr

/-- One user-weight override: keys present in the defaults replace the
default value, every other key is ignored (`_effective_weights`). -/
def apply_weight_override (w : Weights) (kv : Str × ℚ) : Weights :=
  if kv.1 = str "work_mode" then { w with work_mode := kv.2 }
  else if kv.1 = str "location" then { w with location := kv.2 }
  else if kv.1 = str "stipend" then { w with stipend := kv.2 }
  else if kv.1 = str "company_size" then { w with company_size := kv.2 }
  else if kv.1 = str "experience_level" then { w with experience_level := kv.2 }
  else if kv.1 = str "sector" then { w with sector := kv.2 }
  else if kv.1 = str "role_match" then { w with role_match := kv.2 }
  else if kv.1 = str "company_preference" then { w with company_preference := kv.2 }
  else if kv.1 = str "skill_match" then { w with skill_match := kv.2 }
  else w

/-- `_effective_weights`: defaults overridden by the user's weight map. -/
def effective_weights (user_weights : List (Str × ℚ)) : Weights :=
  user_weights.foldl apply_weight_override {}

/-- Word character for the regex word boundary `\b` (`\w`). -/
def isWordChar (c : Char) : Bool := c.isAlphanum || c = '_'

/-- A word boundary sits between two positions whose word-character
classes differ (out of range counts as non-word). -/
def wordBoundary (prev next : Option Char) : Bool :=
  (match prev with | some c => isWordChar c | none => false) ≠
    (match next with | some c => isWordChar c | none => false)

/-- Search for `needle` with `\b` on both sides, scanning `hay` and
tracking the previous character (model of
`re.search(r'\b' + re.escape(skill) + r'\b', job_text)`). -/
def searchWordBounded (needle : Str) : Option Char → Str → Bool
  | prev, hay =>
    (needle.isPrefixOf hay && wordBoundary prev hay.head? &&
      wordBoundary needle.getLast? (hay.drop needle.length).head?) ||
    match hay with
    | [] => false
    | c :: rest => searchWordBounded needle (some c) rest

/-- `calculate_skill_match_score` from `services/skill_matching.py`:
keyword matching of the user's skills against the job's
title/description/work-type/sector text; skills of at most two
characters require word boundaries. Returns the clamped matched
fraction and the sorted matched skills. The `user_skills` set is
modelled as a duplicate-free list. -/
def calculate_skill_match_score (user_skills : List Str) (job : Job) : ℚ × List Str :=
  if user_skills = [] then (0, [])
  else
    let text_parts := [job.title, job.description, job.work_type, job.sector].filter strTruthy
    let job_text := strLower (List.intercalate (str " ") text_parts)
    let matched := user_skills.filter (fun skill =>
      if skill.length ≤ 2 then searchWordBounded skill none job_text
      else containsSub skill job_text)
    (clamp_score ((matched.length : ℚ) / (user_skills.length : ℚ)),
      List.insertionSort (fun a b => a ≤ b) matched)

/-- One heuristically scored row of `result_rows` (the `agent_trace` blob
is diagnostic only and not modelled). -/
structure MatchRow where
  job : Job
  job_quality_score : ℚ
  fit_score : ℚ
  selection_probability : ℚ
  why : Str
  published_at_ord : Int
  created_at_ord : Int
deriving DecidableEq, Repr

/-- `_ordinal` for the nullable publication date (None ↦ 0). -/
def ordinal_opt (v : Option Int) : Int := v.getD 0

/-- Phase-1 heuristic scoring of one job, the loop body of
`run_agent_pipeline` (`orchestrator.py` lines 81–191): quality from
completeness signals, fit from weighted preference matches plus the
resume-skill overlap, selection as the clamped 45/35/10/10 blend. -/
def heuristic_score_job (effective : Weights) (prefs : Preferences)
    (user_skills : List Str) (job : Job) : MatchRow :=
  let desc_len := (strTrim job.description).length
  let quality := clamp_score ((40 : ℚ)/100 + (if desc_len > 120 then (20 : ℚ)/100 else 0) +
    (if strTruthy job.apply_url then (20 : ℚ)/100 else 0) +
    (if strTruthy job.company_name then (20 : ℚ)/100 else 0))
  let skill_part :=
    if user_skills ≠ [] then
      effective.skill_match * (calculate_skill_match_score user_skills job).1
    else 0
  let fit0 : ℚ := skill_part +
    (if job.work_mode = prefs.work_mode then effective.work_mode else 0) +
    (if job.employment_type = prefs.employment_type then (15 : ℚ)/100 else 0) +
    (if strTruthy prefs.location ∧ containsSub prefs.location (strLower job.location) then
      effective.location * 1/2 else 0) +
    (if job.company_size = prefs.company_size_preference then effective.company_size else 0) +
    (if strTruthy prefs.experience_level ∧ job.experience_level = prefs.experience_level then
      effective.experience_level else 0) +
    (if prefs.preferred_sectors ≠ [] ∧ strTruthy job.sector ∧
        prefs.preferred_sectors.any (fun s => containsSub (strLower s) (strLower job.sector)) then
      effective.sector else 0) +
    (if prefs.preferred_roles ≠ [] ∧ strTruthy job.title ∧
        prefs.preferred_roles.any (fun s => containsSub (strLower s) (strLower job.title)) then
      effective.role_match else 0) +
    (if prefs.preferred_companies ≠ [] ∧ strTruthy job.company_name ∧
        prefs.preferred_companies.any
          (fun s => containsSub (strLower s) (strLower job.company_name)) then
      effective.company_preference else 0) +
    (if prefs.stipend_min.isSome ∧ prefs.stipend_max.isSome ∧
        job.stipend_min.isSome ∧ job.stipend_max.isSome then
      effective.stipend * 20/100 else 0)
  let fit := clamp_score fit0
  let selection := clamp_score ((45 : ℚ)/100 * fit + (35 : ℚ)/100 * quality +
    (10 : ℚ)/100 * effective.location + (10 : ℚ)/100 * effective.company_size)
  let matched_skills := (calculate_skill_match_score user_skills job).2
  let reasons : List Str :=
    (if user_skills ≠ [] ∧ matched_skills ≠ [] then
      [str "Skill match (" ++ strOfNat matched_skills.length ++ str "/" ++
        strOfNat user_skills.length ++ str "): " ++
        List.intercalate (str ", ") (matched_skills.take 3)] else []) ++
    (if job.work_mode = prefs.work_mode then [str "Work mode match"] else []) ++
    (if job.employment_type = prefs.employment_type then [str "Employment type match"] else []) ++
    (if strTruthy prefs.location ∧ containsSub prefs.location (strLower job.location) then
      [str "Location alignment"] else []) ++
    (if job.company_size = prefs.company_size_preference then
      [str "Company size preference match"] else []) ++
    (if strTruthy prefs.experience_level ∧ job.experience_level = prefs.experience_level then
      [str "Experience level match"] else []) ++
    (if prefs.preferred_sectors ≠ [] ∧ strTruthy job.sector then
      match prefs.preferred_sectors.find? (fun s => containsSub (strLower s) (strLower job.sector)) with
      | some s => [str "Sector match: " ++ s]
      | none => []
    else []) ++
    (if prefs.preferred_roles ≠ [] ∧ strTruthy job.title then
      match prefs.preferred_roles.find? (fun s => containsSub (strLower s) (strLower job.title)) with
      | some s => [str "Role match: " ++ s]
      | none => []
    else []) ++
    (if prefs.preferred_companies ≠ [] ∧ strTruthy job.company_name then
      match prefs.preferred_companies.find?
          (fun s => containsSub (strLower s) (strLower job.company_name)) with
      | some s => [str "Preferred company: " ++ s]
      | none => []
    else []) ++
    (if prefs.stipend_min.isSome ∧ prefs.stipend_max.isSome ∧
        job.stipend_min.isSome ∧ job.stipend_max.isSome then
      [str "Stipend overlap available"] else [])
  { job := job
    job_quality_score := quality
    fit_score := fit
    selection_probability := selection
    why := if reasons = [] then str "General alignment with preferences"
      else List.intercalate (str "; ") (reasons.take 3)
    published_at_ord := ordinal_opt job.published_at
    created_at_ord := job.created_at }

/-- `GPTJobScore` from `services/agents/gpt_scorer.py` (the `to_dict`
shape consumed by the blender). -/
structure GPTJobScore where
  success : Bool := false
  role_fit : ℚ := 0
  skill_alignment : ℚ := 0
  career_trajectory : ℚ := 0
  culture_signals : ℚ := 0
  overall_score : ℚ := 0
  reasoning : Str := []
  error : Str := []
deriving DecidableEq, Repr

/-- The outcome appended for an item reached after the budget is spent. -/
def time_budget_exceeded_score : GPTJobScore :=
  { error := str "Time budget exceeded" }

/-- The hard-coded batch budget of `score_jobs_with_gpt` (seconds):
`budget_seconds = 80`. -/
def budget_seconds : ℚ := 80

/-- The loop of `score_jobs_with_gpt`, from item index `i` with `n` items
left: the monotonic-clock reading before item `i` is `elapsed i`; when it
has reached the budget the item is marked "Time budget exceeded" with no
model call, otherwise the per-item model call `call i` supplies the
outcome (`score_single_job_with_gpt`, success or per-item error). -/
def score_jobs_loop (budget : ℚ) (elapsed : Nat → ℚ) (call : Nat → GPTJobScore) :
    Nat → Nat → List GPTJobScore
  | _, 0 => []
  | i, n + 1 =>
    (if elapsed i ≥ budget then time_budget_exceeded_score else call i) ::
      score_jobs_loop budget elapsed call (i + 1) n

/-- `score_jobs_with_gpt`: one outcome per input row, under the
wall-clock budget checked before each call. -/
def score_jobs_with_gpt (budget : ℚ) (elapsed : Nat → ℚ) (call : Nat → GPTJobScore)
    (n : Nat) : List GPTJobScore :=
  score_jobs_loop budget elapsed call 0 n

/-- `gpt_metrics` returned by `_apply_gpt_scoring`. -/
structure GptMetrics where
  applied : Bool
  reason : Str := []
  jobs_scored : Nat := 0
  jobs_attempted : Nat := 0
deriving DecidableEq, Repr

/-- Environment of the optional refinement phase: feature flag, configured
top-N, whether the phase's `try` block raised outside the per-item calls
(`gpt_error` path), the batch budget, the clock, and the per-item model
call outcomes. -/
structure GptEnv where
  enabled : Bool
  top_n : Nat
  phase_error : Option Str
  budget : ℚ
  elapsed : Nat → ℚ
  call : Nat → GPTJobScore

/-- The per-item blend of `_apply_gpt_scoring`: on success the selection
probability becomes the clamped `0.40·heuristic + 0.60·clamp(overall)`
blend and a non-empty reasoning replaces the rationale truncated to 200
characters; otherwise the row is untouched. -/
def blend_row (rg : MatchRow × GPTJobScore) : MatchRow :=
  if rg.2.success then
    { rg.1 with
      selection_probability :=
        clamp_score ((40 : ℚ)/100 * rg.1.selection_probability +
          (60 : ℚ)/100 * clamp_score rg.2.overall_score)
      why := if strTruthy rg.2.reasoning then rg.2.reasoning.take 200 else rg.1.why }
  else rg.1

/-- `_apply_gpt_scoring` from `services/agents/orchestrator.py`: skipped
when disabled or empty, degraded to `gpt_error` when the phase raises,
otherwise the top-N rows are re-scored under the budget and blended,
reporting attempted vs. scored counts. -/
def apply_gpt_scoring (env : GptEnv) (rows : List MatchRow) : List MatchRow × GptMetrics :=
  if ¬env.enabled ∨ rows = [] then
    (rows, { applied := false, reason := str "disabled_or_no_jobs" })
  else
    match env.phase_error with
    | some _ => (rows, { applied := false, reason := str "gpt_error" })
    | none =>
      let candidates := rows.take env.top_n
      let gpt_results := score_jobs_with_gpt env.budget env.elapsed env.call candidates.length
      let pairs := candidates.zip gpt_results
      (pairs.map blend_row ++ rows.drop env.top_n,
        { applied := true
          jobs_scored := pairs.countP (·.2.success)
          jobs_attempted := candidates.length })

/-- The job ranker's sort key (both sorts of `run_agent_pipeline`):
selection probability descending, publication ordinal descending,
creation ordinal descending, then the textual job id ascending. -/
def job_rank_le : MatchRow → MatchRow → Prop :=
  lex2 (fun r => -r.selection_probability)
    (lex2 (fun r => -r.published_at_ord)
      (lex2 (fun r => -r.created_at_ord)
        (fun a b => a.job.job_id ≤ b.job.job_id)))

instance : DecidableRel job_rank_le := by
  unfold job_rank_le
  infer_instance

/-- One entry of the pipeline's `top_jobs` output. -/
structure TopJob where
  rank : Nat
  job_id : Nat
  selection_probability : ℚ
  fit_score : ℚ
  job_quality_score : ℚ
  why : Str
deriving DecidableEq, Repr

/-- `enumerate(result_rows, start=i)` projecting rows to `top_jobs`. -/
def enumerate_top_jobs : Nat → List MatchRow → List TopJob
  | _, [] => []
  | i, r :: rs =>
    ⟨i, r.job.id, r.selection_probability, r.fit_score, r.job_quality_score, r.why⟩ ::
      enumerate_top_jobs (i + 1) rs

/-- Result shape of `run_agent_pipeline`. -/
structure PipelineResult where
  top_jobs : List TopJob
  total_ranked : Nat
  fallback_applied : Bool
  fallback_reason : Str
  gpt_metrics : GptMetrics

/-- `run_agent_pipeline` from `services/agents/orchestrator.py`: phase-1
heuristic scoring of every job, the deterministic sort, the optional GPT
refinement with a re-sort when applied, and 1-based rank assignment. The
resume-skill set extracted once before the loop is `user_skills`. -/
def run_agent_pipeline (jobs : List Job) (prefs : Preferences) (user_skills : List Str)
    (env : GptEnv) : PipelineResult :=
  let effective := effective_weights prefs.weights
  let result_rows := jobs.map (heuristic_score_job effective prefs user_skills)
  let sorted_rows := List.insertionSort job_rank_le result_rows
  let blended := apply_gpt_scoring env sorted_rows
  let final_rows :=
    if blended.2.applied then List.insertionSort job_rank_le blended.1 else blended.1
  { top_jobs := enumerate_top_jobs 1 final_rows
    total_ranked := final_rows.length
    fallback_applied := final_rows.length = 0
    fallback_reason := if final_rows.length = 0 then str "NO_MATCHING_JOBS" else []
    gpt_metrics := blended.2 }

/-!
Run lifecycle
(`services/matching_orchestrator.py`, `job_search/tasks.py`).
-/

/-- Status enum of `MatchingRun`. -/
inductive MRStatus where
  | PENDING
  | FILTERING
  | AGENT_RUNNING
  | COMPLETED
  | FAILED
deriving DecidableEq, Repr

/-- `MatchingRun` model (fields the orchestrator reads or writes;
`profile_skills` models the skill set extracted from the candidate
profile snapshot; the wall-clock entries of `timing_metrics` are external
measurements and are not modelled). -/
structure MatchingRun where
  status : MRStatus
  preferences_snapshot : Preferences
  profile_skills : List Str
  filtered_jobs_count : Nat
  error_code : Str
  error_message : Str
  started_at : Option Nat
  completed_at : Option Nat
deriving DecidableEq, Repr

/-- One persisted `MatchingResult` row. -/
structure MatchingResult where
  job_id : Nat
  rank : Nat
  selection_probability : ℚ
  fit_score : ℚ
  job_quality_score : ℚ
  why : Str
deriving DecidableEq, Repr

/-- Everything `run_matching_for_run` leaves behind: the saved run and the
bulk-replaced result rows (`none` when the result table was not touched). -/
structure MROutcome where
  run : MatchingRun
  results : Option (List MatchingResult)

/-- `run_matching_for_run` from `services/matching_orchestrator.py`:
terminal runs are returned unchanged; otherwise the run walks
FILTERING → (COMPLETED on an empty filtered set) → AGENT_RUNNING →
COMPLETED, bulk-replacing the results of the agent pipeline. -/
def run_matching_for_run (run : MatchingRun) (catalog : List Job) (env : GptEnv)
    (now : Nat) : MROutcome :=
  if run.status = .COMPLETED ∨ run.status = .FAILED then
    ⟨run, none⟩
  else
    let normalized := normalize_preferences run.preferences_snapshot
    let filtering := filter_jobs normalized catalog
    let run1 := { run with
      status := .FILTERING
      started_at := some now
      filtered_jobs_count := filtering.total_considered }
    if filtering.total_considered = 0 then
      ⟨{ run1 with status := .COMPLETED, completed_at := some now }, none⟩
    else
      let pipeline := run_agent_pipeline filtering.jobs normalized run.profile_skills env
      let results := pipeline.top_jobs.map (fun t =>
        ({ job_id := t.job_id, rank := t.rank,
           selection_probability := t.selection_probability, fit_score := t.fit_score,
           job_quality_score := t.job_quality_score, why := t.why } : MatchingResult))
      ⟨{ run1 with status := .COMPLETED, completed_at := some now }, some results⟩

/-- The `except` branch of the `run_matching_pipeline` task
(`job_search/tasks.py`): on an exception escaping the pipeline the run is
marked FAILED with `AGENT_PIPELINE_ERROR` and the exception text, saving
only `status`, `error_code`, `error_message` (and `updated_at`) — the
other fields, `completed_at` included, keep whatever state the run had
when the exception escaped. -/
def mark_run_failed_task (run_at_failure : MatchingRun) (exc_text : Str) : MatchingRun :=
  { run_at_failure with
    status := .FAILED
    error_code := str "AGENT_PIPELINE_ERROR"
    error_message := exc_text }

/-- Result of one `run_matching_pipeline` task invocation: the run's saved
state (when one was found) and whether the task re-raised. -/
structure TaskOutcome where
  run : Option MatchingRun
  results : Option (List MatchingResult)
  reraised : Bool

/-- `run_matching_pipeline` from `job_search/tasks.py`: missing or
terminal runs return immediately; otherwise `run_matching_for_run`
executes, and an exception escaping it (`failure = some (msg, state)`,
with `state` the run's mutation state at that moment) lands in the
`except` branch which marks the run FAILED and re-raises. -/
def run_matching_pipeline (run : Option MatchingRun) (catalog : List Job) (env : GptEnv)
    (failure : Option (Str × MatchingRun)) (now : Nat) : TaskOutcome :=
  match run with
  | none => ⟨none, none, false⟩
  | some run =>
    if run.status = .COMPLETED ∨ run.status = .FAILED then
      ⟨some run, none, false⟩
    else
      match failure with
      | some (msg, state) => ⟨some (mark_run_failed_task state msg), none, true⟩
      | none =>
        let outcome := run_matching_for_run run catalog env now
        ⟨some outcome.run, outcome.results, false⟩

/-!
Supporting lemmas.
-/

theorem clamp_score_nonneg (v : ℚ) : 0 ≤ clamp_score v := le_max_left 0 _

theorem clamp_score_le_one (v : ℚ) : clamp_score v ≤ 1 :=
  max_le (by norm_num) (min_le_left 1 v)

theorem clamp_score_idem (v : ℚ) : clamp_score (clamp_score v) = clamp_score v := by
  have h0 := clamp_score_nonneg v
  have h1 := clamp_score_le_one v
  show max 0 (min 1 (clamp_score v)) = clamp_score v
  rw [min_eq_right h1, max_eq_right h0]

theorem cand_rank_le_total : ∀ a b, cand_rank_le a b ∨ cand_rank_le b a := by
  intro a b
  unfold cand_rank_le
  refine lex2_total _ _ (fun a b => ?_) a b
  refine lex2_total _ _ (fun a b => ?_) a b
  refine lex2_total _ _ (fun a b => ?_) a b
  exact Nat.le_total _ _

theorem cand_rank_le_trans : ∀ a b c, cand_rank_le a b → cand_rank_le b c → cand_rank_le a c := by
  intro a b c
  unfold cand_rank_le
  refine lex2_trans _ _ (fun a b c => ?_) a b c
  refine lex2_trans _ _ (fun a b c => ?_) a b c
  refine lex2_trans _ _ (fun a b c => ?_) a b c
  exact Nat.le_trans

instance : IsTotal ScoredRow cand_rank_le := ⟨cand_rank_le_total⟩

instance : IsTrans ScoredRow cand_rank_le := ⟨cand_rank_le_trans⟩

theorem cand_fallback_le_total : ∀ a b, cand_fallback_le a b ∨ cand_fallback_le b a := by
  intro a b
  unfold cand_fallback_le
  refine lex2_total _ _ (fun a b => ?_) a b
  exact Nat.le_total _ _

theorem cand_fallback_le_trans :
    ∀ a b c, cand_fallback_le a b → cand_fallback_le b c → cand_fallback_le a c := by
  intro a b c
  unfold cand_fallback_le
  refine lex2_trans _ _ (fun a b c => ?_) a b c
  exact Nat.le_trans

instance : IsTotal ScoredRow cand_fallback_le := ⟨cand_fallback_le_total⟩

instance : IsTrans ScoredRow cand_fallback_le := ⟨cand_fallback_le_trans⟩

theorem job_rank_le_total : ∀ a b, job_rank_le a b ∨ job_rank_le b a := by
  intro a b
  unfold job_rank_le
  refine lex2_total _ _ (fun a b => ?_) a b
  refine lex2_total _ _ (fun a b => ?_) a b
  refine lex2_total _ _ (fun a b => ?_) a b
  exact le_total _ _

theorem job_rank_le_trans : ∀ a b c, job_rank_le a b → job_rank_le b c → job_rank_le a c := by
  intro a b c
  unfold job_rank_le
  refine lex2_trans _ _ (fun a b c => ?_) a b c
  refine lex2_trans _ _ (fun a b c => ?_) a b c
  refine lex2_trans _ _ (fun a b c => ?_) a b c
  exact le_trans

instance : IsTotal MatchRow job_rank_le := ⟨job_rank_le_total⟩

instance : IsTrans MatchRow job_rank_le := ⟨job_rank_le_trans⟩

theorem assign_ranks_map_rank (openings : Nat) :
    ∀ (i : Nat) (l : List ScoredRow),
      (assign_ranks openings i l).map (·.rank) = List.range' i l.length := by
  intro i l
  induction l generalizing i with
  | nil => simp [assign_ranks]
  | cons r rs ih => simp [assign_ranks, List.range'_succ, ih]

theorem assign_ranks_map_candidate (openings : Nat) :
    ∀ (i : Nat) (l : List ScoredRow),
      (assign_ranks openings i l).map (·.candidate) = l.map (·.candidate) := by
  intro i l
  induction l generalizing i with
  | nil => simp [assign_ranks]
  | cons r rs ih => simp [assign_ranks, ih]

theorem assign_ranks_countP (openings : Nat) (q : JobCandidate → Bool) :
    ∀ (i : Nat) (l : List ScoredRow),
      (assign_ranks openings i l).countP (fun r => q r.candidate) =
        l.countP (fun r => q r.candidate) := by
  intro i l
  induction l generalizing i with
  | nil => simp [assign_ranks]
  | cons r rs ih => simp [assign_ranks, List.countP_cons, ih]

theorem mem_assign_ranks {openings : Nat} {b : ScoredRow} :
    ∀ {i : Nat} {l : List ScoredRow}, b ∈ assign_ranks openings i l →
      ∃ a ∈ l, ∃ j s, b = { a with rank := j, is_shortlisted := s } := by
  intro i l
  induction l generalizing i with
  | nil => simp [assign_ranks]
  | cons r rs ih =>
    intro hb
    rcases List.mem_cons.mp hb with hb | hb
    · exact ⟨r, List.mem_cons_self r rs, i, decide (i ≤ openings), hb⟩
    · rcases ih hb with ⟨a, ha, j, s, hbeq⟩
      exact ⟨a, List.mem_cons_of_mem r ha, j, s, hbeq⟩

theorem assign_ranks_pairwise {R : ScoredRow → ScoredRow → Prop}
    (hR : ∀ a b i j s t,
      R a b → R { a with rank := i, is_shortlisted := s } { b with rank := j, is_shortlisted := t })
    (openings : Nat) :
    ∀ (i : Nat) (l : List ScoredRow), l.Pairwise R → (assign_ranks openings i l).Pairwise R := by
  intro i l h
  induction l generalizing i with
  | nil => simp [assign_ranks]
  | cons r rs ih =>
    rcases List.pairwise_cons.mp h with ⟨hr, hrs⟩
    refine List.pairwise_cons.mpr ⟨?_, ih (i + 1) hrs⟩
    intro b hb
    rcases mem_assign_ranks hb with ⟨a, ha, j, s, hbeq⟩
    subst hbeq
    exact hR r a i j (decide (i ≤ openings)) s (hr a ha)

theorem enumerate_top_jobs_map_rank :
    ∀ (i : Nat) (l : List MatchRow),
      (enumerate_top_jobs i l).map (·.rank) = List.range' i l.length := by
  intro i l
  induction l generalizing i with
  | nil => simp [enumerate_top_jobs]
  | cons r rs ih => simp [enumerate_top_jobs, List.range'_succ, ih]

theorem stage_attempt_loop_status {α : Type} (stage agent : Str) (cid : Option Nat)
    (maxAttempts : Nat) (fn : Nat → Except Str α) :
    ∀ (attempt remaining : Nat) (t : TraceEvent),
      t ∈ (stage_attempt_loop stage agent cid maxAttempts fn attempt remaining).2 →
      t.status = .SUCCESS ∨ t.status = .FAILED := by
  intro attempt remaining
  induction remaining generalizing attempt with
  | zero => simp [stage_attempt_loop]
  | succ n ih =>
    intro t ht
    rw [stage_attempt_loop] at ht
    rcases hfn : fn attempt with e | out
    · rw [hfn] at ht
      simp only [List.mem_cons] at ht
      rcases ht with ht | ht
      · subst ht
        exact Or.inr rfl
      · exact ih (attempt + 1) t ht
    · rw [hfn] at ht
      simp only [List.mem_singleton] at ht
      subst ht
      exact Or.inl rfl

theorem stage_attempt_loop_length {α : Type} (stage agent : Str) (cid : Option Nat)
    (maxAttempts : Nat) (fn : Nat → Except Str α) :
    ∀ (attempt remaining : Nat),
      (stage_attempt_loop stage agent cid maxAttempts fn attempt remaining).2.length ≤ remaining := by
  intro attempt remaining
  induction remaining generalizing attempt with
  | zero => simp [stage_attempt_loop]
  | succ n ih =>
    rw [stage_attempt_loop]
    rcases hfn : fn attempt with e | out
    · simpa using Nat.succ_le_succ (ih (attempt + 1))
    · simp

theorem stage_attempt_loop_all_fail {α : Type} (stage agent : Str) (cid : Option Nat)
    (maxAttempts : Nat) (fn : Nat → Except Str α)
    (hfail : ∀ i, ∀ out : α, fn i ≠ .ok out) :
    ∀ (attempt remaining : Nat),
      (stage_attempt_loop stage agent cid maxAttempts fn attempt remaining).1 = none := by
  intro attempt remaining
  induction remaining generalizing attempt with
  | zero => simp [stage_attempt_loop]
  | succ n ih =>
    rw [stage_attempt_loop]
    rcases hfn : fn attempt with e | out
    · simpa using ih (attempt + 1)
    · exact absurd hfn (hfail attempt out)

theorem blend_row_of_not_success {r : MatchRow} {g : GPTJobScore} (h : g.success = false) :
    blend_row (r, g) = r := by
  simp [blend_row, h]

theorem zip_blend_all_fail :
    ∀ (l1 : List MatchRow) (l2 : List GPTJobScore), l1.length = l2.length →
      (∀ g ∈ l2, g.success = false) → (l1.zip l2).map blend_row = l1 := by
  intro l1
  induction l1 with
  | nil => simp
  | cons r rs ih =>
    intro l2 hlen hfail
    match l2 with
    | [] => simp at hlen
    | g :: gs =>
      simp only [List.zip_cons_cons, List.map_cons]
      rw [blend_row_of_not_success (hfail g (List.mem_cons_self g gs)),
        ih gs (by simpa using hlen) (fun x hx => hfail x (List.mem_cons_of_mem g hx))]

theorem score_jobs_loop_getElem (budget : ℚ) (elapsed : Nat → ℚ) (call : Nat → GPTJobScore) :
    ∀ (n i k : Nat), k < n →
      (score_jobs_loop budget elapsed call i n)[k]? =
        some (if elapsed (i + k) ≥ budget then time_budget_exceeded_score else call (i + k)) := by
  intro n
  induction n with
  | zero => omega
  | succ m ih =>
    intro i k hk
    rw [score_jobs_loop]
    match k with
    | 0 => simp
    | k + 1 =>
      have hk2 : k < m := by omega
      simp only [List.getElem?_cons_succ]
      rw [ih (i + 1) k hk2]
      have harith : i + 1 + k = i + (k + 1) := by omega
      rw [harith]

theorem score_jobs_loop_zero_budget (elapsed : Nat → ℚ) (call : Nat → GPTJobScore)
    (hcl : ∀ i, 0 ≤ elapsed i) :
    ∀ (n i : Nat), score_jobs_loop 0 elapsed call i n =
      List.replicate n time_budget_exceeded_score := by
  intro n
  induction n with
  | zero => simp [score_jobs_loop]
  | succ m ih =>
    intro i
    rw [score_jobs_loop, List.replicate_succ, if_pos (hcl i), ih (i + 1)]

theorem score_jobs_loop_length (budget : ℚ) (elapsed : Nat → ℚ) (call : Nat → GPTJobScore) :
    ∀ (n i : Nat), (score_jobs_loop budget elapsed call i n).length = n := by
  intro n
  induction n with
  | zero => simp [score_jobs_loop]
  | succ m ih =>
    intro i
    rw [score_jobs_loop]
    simp [ih (i + 1)]

/-!
Concrete sample values used by counterexamples and witnesses.
-/

/-- A blank job record. -/
def job0 : Job :=
  { id := 0
    job_id := []
    title := []
    description := []
    company_name := []
    location := []
    work_mode := []
    employment_type := []
    internship_duration_weeks := none
    company_size := []
    experience_level := []
    sector := []
    work_type := []
    stipend_min := none
    stipend_max := none
    stipend_currency := none
    apply_url := []
    published_at := none
    created_at := 0 }

/-- A blank preference payload. -/
def prefs0 : Preferences :=
  { work_mode := []
    employment_type := []
    internship_duration_weeks := none
    location := []
    company_size_preference := []
    experience_level := []
    stipend_min := none
    stipend_max := none
    stipend_currency := str "INR"
    preferred_sectors := []
    excluded_sectors := []
    preferred_roles := []
    excluded_keywords := []
    excluded_companies := []
    preferred_companies := []
    weights := [] }

/-- A job offering 10–20 USD, for the currency-mismatch counterexample. -/
def c7_job : Job :=
  { job0 with
    id := 1
    stipend_min := some 10
    stipend_max := some 20
    stipend_currency := some (str "USD") }

/-- Preferences asking for 15–25 INR. -/
def c7_prefs : Preferences :=
  { prefs0 with
    stipend_min := some 15
    stipend_max := some 25 }

/-- The same job in INR, for the overlap witness. -/
def c7w_job : Job :=
  { c7_job with stipend_currency := some (str "INR") }

/-- A disabled model-refinement environment. -/
def gpt_disabled_env : GptEnv :=
  { enabled := false
    top_n := 15
    phase_error := none
    budget := budget_seconds
    elapsed := fun _ => 0
    call := fun _ => {} }

/-- A refinement environment whose single model call succeeds with an
out-of-range overall score and an empty reasoning string. -/
def c3_env : GptEnv :=
  { enabled := true
    top_n := 15
    phase_error := none
    budget := 1
    elapsed := fun _ => 0
    call := fun _ => { success := true, overall_score := 2, reasoning := [] } }

/-- A heuristic row with selection probability 1/2. -/
def c3_row : MatchRow :=
  { job := job0
    job_quality_score := 1/2
    fit_score := 1/2
    selection_probability := 1/2
    why := str "heuristic why"
    published_at_ord := 0
    created_at_ord := 0 }

/-- A refinement environment whose single model call succeeds with an
in-range overall score and a non-empty reasoning string. -/
def c3w_env : GptEnv :=
  { enabled := true
    top_n := 15
    phase_error := none
    budget := 1
    elapsed := fun _ => 0
    call := fun _ => { success := true, overall_score := 3/4, reasoning := str "model says fine" } }

/-- A refinement environment with a zero budget. -/
def c4w_env : GptEnv :=
  { enabled := true
    top_n := 15
    phase_error := none
    budget := 0
    elapsed := fun _ => 0
    call := fun _ => { success := true, overall_score := 1 } }

/-- A blank scored candidate row. -/
def srow0 : ScoredRow :=
  { candidate := ⟨0, [], [], [], 0⟩
    passes_hard_filter := true
    filter_reasons := []
    final_score := 50
    sub_scores := ⟨50, 50, 50, 50⟩
    summary := [] }

/-- Candidate id 1, created later (ordinal 5); identical scores. -/
def c6_rowX : ScoredRow :=
  { srow0 with candidate := ⟨1, str "a", [], [], 5⟩ }

/-- Candidate id 2, created earlier (ordinal 1); identical scores. -/
def c6_rowY : ScoredRow :=
  { srow0 with candidate := ⟨2, str "b", [], [], 1⟩ }

/-- Job row with textual id "a"; all numeric keys tie with `c6_jobrow_b`. -/
def c6_jobrow_a : MatchRow :=
  { c3_row with job := { job0 with id := 1, job_id := str "a" } }

/-- Job row with textual id "b"; all numeric keys tie with `c6_jobrow_a`. -/
def c6_jobrow_b : MatchRow :=
  { c3_row with job := { job0 with id := 2, job_id := str "b" } }

/-- Stage oracles in which every attempt of every stage fails. -/
def fail_oracle : StageOracle :=
  { a := fun _ => .error (str "boom")
    b := fun _ _ => .error (str "boom")
    c := fun _ _ => .error (str "boom")
    d := fun _ _ => .error (str "boom")
    e := fun _ _ _ _ => .error (str "boom")
    f := fun _ _ _ _ _ _ => .error (str "boom") }

/-- A completed candidate-ranking run. -/
def c2_cr_run : CRRun :=
  { id := 7
    status := .COMPLETED
    error_code := []
    error_message := []
    started_at := some 3
    completed_at := some 4
    model_name := []
    total_candidates := 2
    processed_candidates := 2
    shortlisted_count := 1
    batch_size := 10 }

/-- A failed matching run. -/
def c2_m_run : MatchingRun :=
  { status := .FAILED
    preferences_snapshot := prefs0
    profile_skills := []
    filtered_jobs_count := 0
    error_code := str "AGENT_PIPELINE_ERROR"
    error_message := str "boom"
    started_at := some 3
    completed_at := none }

/-- A pending matching run about to be processed. -/
def c9_run : MatchingRun :=
  { status := .PENDING
    preferences_snapshot := prefs0
    profile_skills := []
    filtered_jobs_count := 0
    error_code := []
    error_message := []
    started_at := none
    completed_at := none }

/-- The run's mutation state at the moment an exception escaped (here:
during filtering, after the first save). -/
def c9_state : MatchingRun :=
  { c9_run with
    status := .FILTERING
    started_at := some 0 }

/-- A recruiter preference accepting tiers 1–2, 0–2 years, no coding rules. -/
def c5_pref : RecruiterPref :=
  { college_tiers := [str "TIER_1", str "TIER_2"]
    min_experience_years := 0
    max_experience_years := 2
    coding_platform_criteria := []
    number_of_openings := 2
    job_description := [] }

/-- A stage-C output reporting five extracted years. -/
def c5_exp : StageCOut :=
  ⟨5, str "5+ years", 1/2, [str "regex_extraction"]⟩

/-- A stage-B output classifying TIER_1. -/
def c5_college : StageBOut :=
  ⟨str "TIER_1", 9/10, [], false⟩

/-- A stage-C output reporting one extracted year. -/
def c10_exp : StageCOut :=
  ⟨1, str "1+ years", 1/2, [str "regex_extraction"]⟩

/-- A pending candidate-ranking run over one candidate. -/
def c1_run : CRRun :=
  { id := 9
    status := .PENDING
    error_code := []
    error_message := []
    started_at := none
    completed_at := none
    model_name := []
    total_candidates := 0
    processed_candidates := 0
    shortlisted_count := 0
    batch_size := 10 }

/-- The single candidate of the witness run. -/
def c1_cand : JobCandidate := ⟨11, str "Alice", str "alice@example.com", [], 1⟩

/-!
Claim theorems.
-/

/-- Claim C7 counterexample: a job whose compensation band `[10,20]`
overlaps the preferred band `[15,25]`, with both bounds present on each
side, is nevertheless excluded by the deterministic filter's stipend
stage because its currency (USD) differs from the preference currency
(INR) — so inclusion is not equivalent to band overlap alone. -/
theorem c7_counterexample :
    c7_prefs.stipend_min = some 15 ∧ c7_prefs.stipend_max = some 25 ∧
    c7_job.stipend_min = some 10 ∧ c7_job.stipend_max = some 20 ∧
    ((20 : ℚ) ≥ 15 ∧ (10 : ℚ) ≤ 25) ∧
    stipend_filter c7_prefs [c7_job] = [] := by
  refine ⟨rfl, rfl, rfl, rfl, ⟨by norm_num, by norm_num⟩, ?_⟩
  decide

/-- Claim C7 (amended): for all compensation ranges `[a,b]` on a job and
`[c,d]` in the preferences, with both bounds present on each side and the
job's compensation currency equal to the preference currency, the
deterministic filter's stipend stage keeps the job iff
`b ≥ c ∧ a ≤ d`. -/
theorem c7_stipend_overlap :
    ∀ (prefs : Preferences) (jobs : List Job) (j : Job) (a b c d : ℚ),
      prefs.stipend_min = some c → prefs.stipend_max = some d →
      j.stipend_min = some a → j.stipend_max = some b →
      j.stipend_currency = some prefs.stipend_currency →
      (j ∈ stipend_filter prefs jobs ↔ j ∈ jobs ∧ (b ≥ c ∧ a ≤ d)) := by
  intro prefs jobs j a b c d hpmin hpmax hjmin hjmax hcur
  unfold stipend_filter
  rw [if_pos ⟨by rw [hpmin]; rfl, by rw [hpmax]; rfl⟩, List.mem_filter]
  unfold stipend_overlap_pred
  rw [hjmin, hjmax, hcur, hpmin, hpmax]
  simp

/-- Claim C7 witness: a job offering 10–20 INR against a 15–25 INR
preference is kept by the stipend stage. -/
theorem c7_witness : c7w_job ∈ stipend_filter c7_prefs [c7w_job] := by
  have h := c7_stipend_overlap c7_prefs [c7w_job] c7w_job 10 20 15 25 rfl rfl rfl rfl rfl
  exact h.mpr ⟨List.mem_singleton.mpr rfl, by norm_num, by norm_num⟩

theorem fit_scoring_weighted_formula (n : NormalizedCandidate) (hard : StageEOut)
    (college : StageBOut) (exp : StageCOut) (coding : StageDOut) (pref : RecruiterPref)
    (h : hard.passes_hard_filter = true) :
    (fit_scoring_agent n hard college exp coding pref).final_score =
      round2 ((25 : ℚ)/100 * (fit_scoring_agent n hard college exp coding pref).sub_scores.education_fit +
        (25 : ℚ)/100 * (fit_scoring_agent n hard college exp coding pref).sub_scores.experience_fit +
        (30 : ℚ)/100 * (fit_scoring_agent n hard college exp coding pref).sub_scores.coding_fit +
        (20 : ℚ)/100 * (fit_scoring_agent n hard college exp coding pref).sub_scores.jd_relevance) := by
  simp [fit_scoring_agent, h]

/-- Claim C5: when the hard-filter output is not passing, the fit-score
stage returns all-zero sub-scores, final score 0 and the rejection
summary, regardless of every other stage output; in particular a
candidate with 5 extracted years against the band [0,2] fails the hard
filter; and when the hard filter passes, the final score is
`round(0.25·education + 0.25·experience + 0.30·coding + 0.20·jd, 2)`. -/
theorem c5_hard_filter_short_circuit :
    (∀ (n : NormalizedCandidate) (hard : StageEOut) (college : StageBOut) (exp : StageCOut)
        (coding : StageDOut) (pref : RecruiterPref),
      hard.passes_hard_filter = false →
        fit_scoring_agent n hard college exp coding pref =
          ⟨⟨0, 0, 0, 0⟩, 0, str "Rejected by hard filters"⟩) ∧
    (∀ (pref : RecruiterPref) (college : StageBOut) (exp : StageCOut) (coding : StageDOut),
      exp.years_of_experience = 5 → pref.min_experience_years = 0 →
      pref.max_experience_years = 2 →
        (hard_filter_agent pref college exp coding).passes_hard_filter = false) ∧
    (∀ (n : NormalizedCandidate) (hard : StageEOut) (college : StageBOut) (exp : StageCOut)
        (coding : StageDOut) (pref : RecruiterPref),
      hard.passes_hard_filter = true →
        (fit_scoring_agent n hard college exp coding pref).final_score =
          round2 ((25 : ℚ)/100 * (fit_scoring_agent n hard college exp coding pref).sub_scores.education_fit +
            (25 : ℚ)/100 * (fit_scoring_agent n hard college exp coding pref).sub_scores.experience_fit +
            (30 : ℚ)/100 * (fit_scoring_agent n hard college exp coding pref).sub_scores.coding_fit +
            (20 : ℚ)/100 * (fit_scoring_agent n hard college exp coding pref).sub_scores.jd_relevance)) := by
  refine ⟨?_, ?_, ?_⟩
  · intro n hard college exp coding pref h
    simp [fit_scoring_agent, h]
  · intro pref college exp coding h5 hmin hmax
    simp only [hard_filter_agent, h5, hmin, hmax]
    have : ((5 : ℚ) < 0 ∨ (5 : ℚ) > 2) := by norm_num
    simp [this]
  · intro n hard college exp coding pref h
    exact fit_scoring_weighted_formula n hard college exp coding pref h

/-- Claim C5 witness: the three parts at concrete stage outputs — the
hard-filter fallback output forces the zero shape; five years against
[0,2] is rejected; a passing candidate's final score satisfies the
weighted-composite identity. -/
theorem c5_witness :
    fit_scoring_agent emptyNormalized stage_fallback_e c5_college c5_exp stage_fallback_d c5_pref =
      ⟨⟨0, 0, 0, 0⟩, 0, str "Rejected by hard filters"⟩ ∧
    (hard_filter_agent c5_pref c5_college c5_exp stage_fallback_d).passes_hard_filter = false ∧
    (fit_scoring_agent emptyNormalized
        (hard_filter_agent c5_pref c5_college c10_exp stage_fallback_d) c5_college c10_exp
        stage_fallback_d c5_pref).final_score =
      round2 ((25 : ℚ)/100 * (fit_scoring_agent emptyNormalized
          (hard_filter_agent c5_pref c5_college c10_exp stage_fallback_d) c5_college c10_exp
          stage_fallback_d c5_pref).sub_scores.education_fit +
        (25 : ℚ)/100 * (fit_scoring_agent emptyNormalized
          (hard_filter_agent c5_pref c5_college c10_exp stage_fallback_d) c5_college c10_exp
          stage_fallback_d c5_pref).sub_scores.experience_fit +
        (30 : ℚ)/100 * (fit_scoring_agent emptyNormalized
          (hard_filter_agent c5_pref c5_college c10_exp stage_fallback_d) c5_college c10_exp
          stage_fallback_d c5_pref).sub_scores.coding_fit +
        (20 : ℚ)/100 * (fit_scoring_agent emptyNormalized
          (hard_filter_agent c5_pref c5_college c10_exp stage_fallback_d) c5_college c10_exp
          stage_fallback_d c5_pref).sub_scores.jd_relevance) := by
  refine ⟨?_, ?_, ?_⟩
  · exact c5_hard_filter_short_circuit.1 emptyNormalized stage_fallback_e c5_college c5_exp
      stage_fallback_d c5_pref rfl
  · exact c5_hard_filter_short_circuit.2.1 c5_pref c5_college c5_exp stage_fallback_d rfl rfl rfl
  · refine c5_hard_filter_short_circuit.2.2 emptyNormalized _ c5_college c10_exp stage_fallback_d
      c5_pref ?_
    decide

/-- Claim C10: with an empty coding-platform criteria list the signal
stage emits no comparisons, the hard filter's coding check never rejects
(no coding reason is added and the verdict reduces to the tier and
experience checks), and a candidate passing the hard filter receives the
constant coding-fit sub-score 70, contributing 21 points to the final
score. -/
theorem c10_empty_coding_criteria :
    ∀ (pref : RecruiterPref) (extracted : List PlatformSignal) (college : StageBOut)
      (exp : StageCOut) (n : NormalizedCandidate),
      pref.coding_platform_criteria = [] →
      (coding_profile_signal_agent extracted pref).criteria_comparisons = [] ∧
      (hard_filter_agent pref college exp (coding_profile_signal_agent extracted pref)).passes_hard_filter =
        (pref.college_tiers.contains college.college_tier &&
          decide (¬(exp.years_of_experience < pref.min_experience_years ∨
            exp.years_of_experience > pref.max_experience_years))) ∧
      (hard_filter_agent pref college exp (coding_profile_signal_agent extracted pref)).rejected_reasons =
        (if pref.college_tiers.contains college.college_tier then []
          else [str "College tier mismatch: " ++ college.college_tier]) ++
        (if ¬(exp.years_of_experience < pref.min_experience_years ∨
            exp.years_of_experience > pref.max_experience_years) then []
          else [str "Experience outside preferred range"]) ∧
      ((hard_filter_agent pref college exp (coding_profile_signal_agent extracted pref)).passes_hard_filter = true →
        (fit_scoring_agent n
            (hard_filter_agent pref college exp (coding_profile_signal_agent extracted pref))
            college exp (coding_profile_signal_agent extracted pref) pref).sub_scores.coding_fit = 70 ∧
        (fit_scoring_agent n
            (hard_filter_agent pref college exp (coding_profile_signal_agent extracted pref))
            college exp (coding_profile_signal_agent extracted pref) pref).final_score =
          round2 ((25 : ℚ)/100 * (fit_scoring_agent n
              (hard_filter_agent pref college exp (coding_profile_signal_agent extracted pref))
              college exp (coding_profile_signal_agent extracted pref) pref).sub_scores.education_fit +
            (25 : ℚ)/100 * (fit_scoring_agent n
              (hard_filter_agent pref college exp (coding_profile_signal_agent extracted pref))
              college exp (coding_profile_signal_agent extracted pref) pref).sub_scores.experience_fit +
            21 +
            (20 : ℚ)/100 * (fit_scoring_agent n
              (hard_filter_agent pref college exp (coding_profile_signal_agent extracted pref))
              college exp (coding_profile_signal_agent extracted pref) pref).sub_scores.jd_relevance)) := by
  intro pref extracted college exp n hempty
  have hcomp : (coding_profile_signal_agent extracted pref).criteria_comparisons = [] := by
    simp [coding_profile_signal_agent, hempty]
  refine ⟨hcomp, ?_, ?_, ?_⟩
  · simp [hard_filter_agent, hcomp]
  · simp [hard_filter_agent, hcomp]
  · intro hpass
    have h70 : (fit_scoring_agent n
        (hard_filter_agent pref college exp (coding_profile_signal_agent extracted pref))
        college exp (coding_profile_signal_agent extracted pref) pref).sub_scores.coding_fit = 70 := by
      simp [fit_scoring_agent, hpass, hcomp]
    refine ⟨h70, ?_⟩
    have hform := fit_scoring_weighted_formula n
      (hard_filter_agent pref college exp (coding_profile_signal_agent extracted pref))
      college exp (coding_profile_signal_agent extracted pref) pref hpass
    rw [hform, h70]
    norm_num

/-- Claim C10 witness: an empty criteria list at concrete stage outputs —
no comparisons, a passing hard filter, coding-fit 70. -/
theorem c10_witness :
    (coding_profile_signal_agent [] c5_pref).criteria_comparisons = [] ∧
    (hard_filter_agent c5_pref c5_college c10_exp (coding_profile_signal_agent [] c5_pref)).passes_hard_filter = true ∧
    (fit_scoring_agent emptyNormalized
        (hard_filter_agent c5_pref c5_college c10_exp (coding_profile_signal_agent [] c5_pref))
        c5_college c10_exp (coding_profile_signal_agent [] c5_pref) c5_pref).sub_scores.coding_fit = 70 := by
  have h := c10_empty_coding_criteria c5_pref [] c5_college c10_exp emptyNormalized rfl
  refine ⟨h.1, by decide, ?_⟩
  exact (h.2.2.2 (by decide)).1

theorem round2_bounds {q : ℚ} (h0 : 0 ≤ q) (h1 : q ≤ 100) : 0 ≤ round2 q ∧ round2 q ≤ 100 := by
  have habs := abs_sub_round (q * 100)
  rw [abs_le] at habs
  have hlow : (-1 : ℚ) < (round (q * 100) : ℤ) := by
    have := habs.2
    push_cast at this ⊢
    nlinarith
  have hlowZ : (0 : ℤ) ≤ round (q * 100) := by
    have h2 : (-1 : ℤ) < round (q * 100) := by exact_mod_cast hlow
    omega
  have hhi : ((round (q * 100) : ℤ) : ℚ) < 10001 := by
    have := habs.1
    push_cast at this ⊢
    nlinarith
  have hhiZ : round (q * 100) ≤ 10000 := by
    have h2 : (round (q * 100) : ℤ) < 10001 := by exact_mod_cast hhi
    omega
  unfold round2
  constructor
  · positivity
  · rw [div_le_iff₀ (by norm_num : (0 : ℚ) < 100)]
    have : ((round (q * 100) : ℤ) : ℚ) ≤ 10000 := by exact_mod_cast hhiZ
    linarith

/-- Claim C8: every produced heuristic score (quality, fit, selection) is
a fixed point of the clamping rule; the blended selection scores after
model refinement stay fixed points; every candidate-ranking sub-score
and final score lies in [0,100]. -/
theorem c8_clamp_fixed_points :
    (∀ (w : Weights) (prefs : Preferences) (skills : List Str) (job : Job),
      clamp_score (heuristic_score_job w prefs skills job).job_quality_score =
        (heuristic_score_job w prefs skills job).job_quality_score ∧
      clamp_score (heuristic_score_job w prefs skills job).fit_score =
        (heuristic_score_job w prefs skills job).fit_score ∧
      clamp_score (heuristic_score_job w prefs skills job).selection_probability =
        (heuristic_score_job w prefs skills job).selection_probability) ∧
    (∀ (env : GptEnv) (rows : List MatchRow),
      (∀ r ∈ rows, clamp_score r.selection_probability = r.selection_probability) →
      ∀ r ∈ (apply_gpt_scoring env rows).1,
        clamp_score r.selection_probability = r.selection_probability) ∧
    (∀ (n : NormalizedCandidate) (hard : StageEOut) (college : StageBOut) (exp : StageCOut)
        (coding : StageDOut) (pref : RecruiterPref),
      (0 ≤ (fit_scoring_agent n hard college exp coding pref).sub_scores.education_fit ∧
        (fit_scoring_agent n hard college exp coding pref).sub_scores.education_fit ≤ 100) ∧
      (0 ≤ (fit_scoring_agent n hard college exp coding pref).sub_scores.experience_fit ∧
        (fit_scoring_agent n hard college exp coding pref).sub_scores.experience_fit ≤ 100) ∧
      (0 ≤ (fit_scoring_agent n hard college exp coding pref).sub_scores.coding_fit ∧
        (fit_scoring_agent n hard college exp coding pref).sub_scores.coding_fit ≤ 100) ∧
      (0 ≤ (fit_scoring_agent n hard college exp coding pref).sub_scores.jd_relevance ∧
        (fit_scoring_agent n hard college exp coding pref).sub_scores.jd_relevance ≤ 100) ∧
      (0 ≤ (fit_scoring_agent n hard college exp coding pref).final_score ∧
        (fit_scoring_agent n hard college exp coding pref).final_score ≤ 100)) := by
  refine ⟨?_, ?_, ?_⟩
  · intro w prefs skills job
    exact ⟨clamp_score_idem _, clamp_score_idem _, clamp_score_idem _⟩
  · intro env rows hrows r hr
    unfold apply_gpt_scoring at hr
    split at hr
    · exact hrows r hr
    · split at hr
      · exact hrows r hr
      · simp only at hr
        rcases List.mem_append.mp hr with hmem | hmem
        · rcases List.mem_map.mp hmem with ⟨⟨a, g⟩, hag, heq⟩
          subst heq
          have ha : a ∈ rows := List.take_subset _ _ (List.of_mem_zip hag).1
          by_cases hs : g.success
          · simp only [blend_row, hs, if_true]
            exact clamp_score_idem _
          · rw [blend_row_of_not_success (by simpa using hs)]
            exact hrows a ha
        · exact hrows r (List.drop_subset _ _ hmem)
  · intro n hard college exp coding pref
    unfold fit_scoring_agent
    split
    · norm_num
    · simp only
      set comps := coding.criteria_comparisons with hcomps
      have hedu : (0 : ℚ) ≤ (if pref.college_tiers.contains college.college_tier
          then (100 : ℚ) else 0) ∧
          (if pref.college_tiers.contains college.college_tier then (100 : ℚ) else 0) ≤ 100 := by
        split <;> norm_num
      have hexp : (0 : ℚ) ≤ (if pref.min_experience_years ≤ exp.years_of_experience ∧
            exp.years_of_experience ≤ pref.max_experience_years then (100 : ℚ) else 0) ∧
          (if pref.min_experience_years ≤ exp.years_of_experience ∧
            exp.years_of_experience ≤ pref.max_experience_years then (100 : ℚ) else 0) ≤ 100 := by
        split <;> norm_num
      have hcod : (0 : ℚ) ≤ (if comps ≠ [] then
            ((⌊(100 : ℚ) * (comps.countP (·.matched) : ℚ) / (comps.length : ℚ)⌋ : ℤ) : ℚ)
          else 70) ∧
          (if comps ≠ [] then
            ((⌊(100 : ℚ) * (comps.countP (·.matched) : ℚ) / (comps.length : ℚ)⌋ : ℤ) : ℚ)
          else 70) ≤ 100 := by
        split
        · rename_i hne
          have hlen : 0 < (comps.length : ℚ) := by
            have hne2 : comps.length ≠ 0 := by
              simpa [List.length_eq_zero] using hne
            positivity
          have hk : (comps.countP (·.matched) : ℚ) ≤ (comps.length : ℚ) := by
            exact_mod_cast List.countP_le_length (p := (·.matched)) (l := comps)
          have hknn : (0 : ℚ) ≤ (comps.countP (·.matched) : ℚ) := by positivity
          have hval0 : (0 : ℚ) ≤ (100 : ℚ) * (comps.countP (·.matched) : ℚ) / (comps.length : ℚ) := by
            positivity
          have hval1 : (100 : ℚ) * (comps.countP (·.matched) : ℚ) / (comps.length : ℚ) ≤ 100 := by
            rw [div_le_iff₀ hlen]
            nlinarith
          constructor
          · exact_mod_cast Int.floor_nonneg.mpr hval0
          · calc ((⌊(100 : ℚ) * (comps.countP (·.matched) : ℚ) / (comps.length : ℚ)⌋ : ℤ) : ℚ)
                ≤ (100 : ℚ) * (comps.countP (·.matched) : ℚ) / (comps.length : ℚ) := Int.floor_le _
              _ ≤ 100 := hval1
        · norm_num
      have hjd : (0 : ℚ) ≤ min 100 (5 * ((((splitWs (strLower pref.job_description)).take 40).eraseDups).countP
            (fun token => token.length > 3 && containsSub token
              (strLower n.skills_text ++ [' '] ++ strLower n.projects_text)) : ℚ)) ∧
          min 100 (5 * ((((splitWs (strLower pref.job_description)).take 40).eraseDups).countP
            (fun token => token.length > 3 && containsSub token
              (strLower n.skills_text ++ [' '] ++ strLower n.projects_text)) : ℚ)) ≤ 100 := by
        constructor
        · apply le_min <;> positivity
        · exact min_le_left _ _
      refine ⟨hedu, hexp, hcod, hjd, ?_⟩
      apply round2_bounds
      · nlinarith [hedu.1, hexp.1, hcod.1, hjd.1]
      · nlinarith [hedu.2, hexp.2, hcod.2, hjd.2]

/-- Claim C8 witness: the clamp fixed-point and range properties at
concrete inputs — default weights, blank preferences, one job, a
disabled refinement environment, and concrete stage outputs. -/
theorem c8_witness :
    clamp_score (heuristic_score_job {} prefs0 [] job0).selection_probability =
      (heuristic_score_job {} prefs0 [] job0).selection_probability ∧
    clamp_score (((apply_gpt_scoring gpt_disabled_env [c3_row]).1.getD 0
        c3_row).selection_probability) =
      ((apply_gpt_scoring gpt_disabled_env [c3_row]).1.getD 0 c3_row).selection_probability ∧
    (0 ≤ (fit_scoring_agent emptyNormalized stage_fallback_e c5_college c5_exp stage_fallback_d
        c5_pref).final_score ∧
      (fit_scoring_agent emptyNormalized stage_fallback_e c5_college c5_exp stage_fallback_d
        c5_pref).final_score ≤ 100) := by
  have hrow : clamp_score c3_row.selection_probability = c3_row.selection_probability := by
    norm_num [c3_row, clamp_score]
  have hlist : (apply_gpt_scoring gpt_disabled_env [c3_row]).1 = [c3_row] := rfl
  refine ⟨(c8_clamp_fixed_points.1 {} prefs0 [] job0).2.2, ?_, ?_⟩
  · have hmem : (apply_gpt_scoring gpt_disabled_env [c3_row]).1.getD 0 c3_row ∈
        (apply_gpt_scoring gpt_disabled_env [c3_row]).1 := by
      rw [hlist]
      exact List.mem_singleton_self c3_row
    exact c8_clamp_fixed_points.2.1 gpt_disabled_env [c3_row]
      (fun x hx => by rw [List.mem_singleton.mp hx]; exact hrow) _ hmem
  · exact (c8_clamp_fixed_points.2.2 emptyNormalized stage_fallback_e c5_college c5_exp
      stage_fallback_d c5_pref).2.2.2.2

/-- Claim C4: the refinement batch checks the clock against the budget
before each per-item model call; every item reached once the budget is
spent gets the "Time budget exceeded" outcome without a model call; with
a zero budget (and a nonnegative clock) every item reports budget
exceeded, all rows keep their heuristic scores and the batch metric
reports zero items scored. -/
theorem c4_time_budget :
    (∀ (budget : ℚ) (elapsed : Nat → ℚ) (call : Nat → GPTJobScore) (n i : Nat),
      i < n → budget ≤ elapsed i →
        (score_jobs_with_gpt budget elapsed call n)[i]? = some time_budget_exceeded_score) ∧
    (∀ (elapsed : Nat → ℚ) (call : Nat → GPTJobScore) (n : Nat),
      (∀ i, 0 ≤ elapsed i) →
        score_jobs_with_gpt 0 elapsed call n = List.replicate n time_budget_exceeded_score) ∧
    (∀ (env : GptEnv) (rows : List MatchRow),
      env.budget = 0 → (∀ i, 0 ≤ env.elapsed i) →
        (apply_gpt_scoring env rows).1 = rows ∧
        (apply_gpt_scoring env rows).2.jobs_scored = 0) := by
  refine ⟨?_, ?_, ?_⟩
  · intro budget elapsed call n i hi hb
    unfold score_jobs_with_gpt
    rw [score_jobs_loop_getElem budget elapsed call n 0 i hi]
    simp [ge_iff_le, hb]
  · intro elapsed call n hcl
    unfold score_jobs_with_gpt
    exact score_jobs_loop_zero_budget elapsed call hcl n 0
  · intro env rows hb hcl
    unfold apply_gpt_scoring
    split
    · exact ⟨rfl, rfl⟩
    · split
      · exact ⟨rfl, rfl⟩
      · simp only
        have hscores : score_jobs_with_gpt env.budget env.elapsed env.call
            (rows.take env.top_n).length =
            List.replicate (rows.take env.top_n).length time_budget_exceeded_score := by
          rw [hb]
          unfold score_jobs_with_gpt
          exact score_jobs_loop_zero_budget env.elapsed env.call hcl _ 0
        rw [hscores]
        constructor
        · rw [zip_blend_all_fail (rows.take env.top_n)
            (List.replicate (rows.take env.top_n).length time_budget_exceeded_score)
            (by simp)
            (fun g hg => by rw [List.eq_of_mem_replicate hg]; rfl)]
          exact List.take_append_drop env.top_n rows
        · rw [List.countP_eq_zero]
          intro p hp
          have := (List.of_mem_zip hp).2
          rw [List.eq_of_mem_replicate this]
          simp [time_budget_exceeded_score]

/-- Claim C4 witness: a zero-budget environment over one row — the single
outcome is "Time budget exceeded", the row list is unchanged and zero
items are scored. -/
theorem c4_witness :
    (score_jobs_with_gpt 0 (fun _ => 0) c4w_env.call 1)[0]? = some time_budget_exceeded_score ∧
    (apply_gpt_scoring c4w_env [c3_row]).1 = [c3_row] ∧
    (apply_gpt_scoring c4w_env [c3_row]).2.jobs_scored = 0 := by
  refine ⟨?_, ?_, ?_⟩
  · exact c4_time_budget.1 0 (fun _ => 0) c4w_env.call 1 0 (by norm_num) (by norm_num)
  · exact (c4_time_budget.2.2 c4w_env [c3_row] rfl (fun i => by norm_num [c4w_env])).1
  · exact (c4_time_budget.2.2 c4w_env [c3_row] rfl (fun i => by norm_num [c4w_env])).2

theorem countP_zip_success :
    ∀ (l1 : List MatchRow) (l2 : List GPTJobScore), l1.length = l2.length →
      (l1.zip l2).countP (·.2.success) = l2.countP (·.success) := by
  intro l1
  induction l1 with
  | nil =>
    intro l2 hlen
    match l2 with
    | [] => rfl
    | b :: bs => simp at hlen
  | cons a as ih =>
    intro l2 hlen
    match l2 with
    | [] => simp at hlen
    | b :: bs =>
      rw [List.zip_cons_cons, List.countP_cons, List.countP_cons,
        ih bs (by simpa using hlen)]

theorem apply_gpt_scoring_main_eq (env : GptEnv) (rows : List MatchRow)
    (he : env.enabled = true) (hp : env.phase_error = none) (hne : rows ≠ []) :
    apply_gpt_scoring env rows =
      (((rows.take env.top_n).zip (score_jobs_with_gpt env.budget env.elapsed env.call
          (rows.take env.top_n).length)).map blend_row ++ rows.drop env.top_n,
        { applied := true
          jobs_scored := ((rows.take env.top_n).zip (score_jobs_with_gpt env.budget env.elapsed
            env.call (rows.take env.top_n).length)).countP (·.2.success)
          jobs_attempted := (rows.take env.top_n).length }) := by
  unfold apply_gpt_scoring
  rw [if_neg (by simp [he, hne]), hp]

/-- Claim C3 counterexample: a model call that succeeds with
`overall_score = 2` and an empty reasoning string. The code blends to
`clamp(0.40·h + 0.60·clamp(2)) = 4/5` and keeps the heuristic rationale,
while the claim's formula `clamp(0.40·h + 0.60·overall)` gives `1` and
demands the rationale be replaced by the (empty) truncated reasoning. -/
theorem c3_counterexample :
    (c3_env.call 0).success = true ∧
    (c3_env.call 0).reasoning = [] ∧
    (c3_env.call 0).overall_score = 2 ∧
    c3_row.selection_probability = 1/2 ∧
    (apply_gpt_scoring c3_env [c3_row]).1.map (·.selection_probability) = [4/5] ∧
    clamp_score ((40 : ℚ)/100 * c3_row.selection_probability +
      (60 : ℚ)/100 * (c3_env.call 0).overall_score) = 1 ∧
    ((4 : ℚ)/5 ≠ 1) ∧
    (apply_gpt_scoring c3_env [c3_row]).1.map (·.why) = [str "heuristic why"] ∧
    (c3_env.call 0).reasoning.take 200 = [] ∧
    str "heuristic why" ≠ ([] : Str) := by
  have heq := apply_gpt_scoring_main_eq c3_env [c3_row] rfl rfl (by simp)
  have hscore : score_jobs_with_gpt c3_env.budget c3_env.elapsed c3_env.call
      (([c3_row].take c3_env.top_n).length) = [c3_env.call 0] := by
    show score_jobs_with_gpt 1 (fun _ => 0) c3_env.call 1 = [c3_env.call 0]
    norm_num [score_jobs_with_gpt, score_jobs_loop]
  rw [hscore] at heq
  refine ⟨rfl, rfl, rfl, rfl, ?_, ?_, by norm_num, ?_, rfl, by decide⟩
  · rw [heq]
    show [(blend_row (c3_row, c3_env.call 0)).selection_probability] = [4/5]
    norm_num [blend_row, c3_env, c3_row, clamp_score]
  · norm_num [c3_env, c3_row, clamp_score]
  · rw [heq]
    show [(blend_row (c3_row, c3_env.call 0)).why] = [str "heuristic why"]
    norm_num [blend_row, c3_env, c3_row, strTruthy]

/-- Claim C3 (amended): in the top-N refinement batch, a successful model
call blends the item's score to `clamp(0.40·heuristic + 0.60·clamp(model_overall))`
and replaces its rationale by the model's reasoning truncated to 200
characters when that reasoning is non-empty (the rationale is kept when
the reasoning is empty); an unsuccessful outcome leaves the item
untouched; items beyond the top-N are untouched; the batch metrics
report the number attempted and the number of successful outcomes. -/
theorem c3_blend_refinement :
    ∀ (env : GptEnv) (rows : List MatchRow),
      env.enabled = true → env.phase_error = none → rows ≠ [] →
      ((apply_gpt_scoring env rows).2.jobs_attempted = (rows.take env.top_n).length ∧
        (apply_gpt_scoring env rows).2.jobs_scored =
          (score_jobs_with_gpt env.budget env.elapsed env.call
            (rows.take env.top_n).length).countP (·.success)) ∧
      (∀ (i : Nat) (r : MatchRow) (g : GPTJobScore),
        rows[i]? = some r → i < env.top_n →
        (score_jobs_with_gpt env.budget env.elapsed env.call
          (rows.take env.top_n).length)[i]? = some g →
        (g.success = true →
          (apply_gpt_scoring env rows).1[i]? = some { r with
            selection_probability := clamp_score ((40 : ℚ)/100 * r.selection_probability +
              (60 : ℚ)/100 * clamp_score g.overall_score)
            why := if strTruthy g.reasoning then g.reasoning.take 200 else r.why }) ∧
        (g.success = false → (apply_gpt_scoring env rows).1[i]? = some r)) ∧
      (∀ (i : Nat) (r : MatchRow), rows[i]? = some r → env.top_n ≤ i →
        (apply_gpt_scoring env rows).1[i]? = some r) := by
  intro env rows he hp hne
  have heq := apply_gpt_scoring_main_eq env rows he hp hne
  have hslen : (score_jobs_with_gpt env.budget env.elapsed env.call
      (rows.take env.top_n).length).length = (rows.take env.top_n).length := by
    unfold score_jobs_with_gpt
    exact score_jobs_loop_length env.budget env.elapsed env.call _ 0
  have hziplen : ((rows.take env.top_n).zip (score_jobs_with_gpt env.budget env.elapsed env.call
      (rows.take env.top_n).length)).length = (rows.take env.top_n).length := by
    rw [List.length_zip, hslen, Nat.min_self]
  refine ⟨⟨by rw [heq], ?_⟩, ?_, ?_⟩
  · rw [heq]
    exact countP_zip_success (rows.take env.top_n) _ hslen.symm
  · intro i r g hr hi hg
    have hrlen : i < rows.length := by
      rcases List.getElem?_eq_some_iff.mp hr with ⟨h, _⟩
      exact h
    have hitake : i < (rows.take env.top_n).length := by
      simp [List.length_take]
      omega
    have htake : (rows.take env.top_n)[i]? = some r := by
      rw [List.getElem?_take_of_lt hi]
      exact hr
    have hpair : ((rows.take env.top_n).zip (score_jobs_with_gpt env.budget env.elapsed env.call
        (rows.take env.top_n).length))[i]? = some (r, g) :=
      List.getElem?_zip_eq_some.mpr ⟨htake, hg⟩
    have hmain : (apply_gpt_scoring env rows).1[i]? = some (blend_row (r, g)) := by
      rw [heq]
      show (List.map blend_row _ ++ _)[i]? = _
      rw [List.getElem?_append_left (by rw [List.length_map, hziplen]; exact hitake),
        List.getElem?_map, hpair]
      rfl
    constructor
    · intro hs
      rw [hmain]
      simp [blend_row, hs]
    · intro hs
      rw [hmain, blend_row_of_not_success hs]
  · intro i r hr hi
    have hrlen : i < rows.length := by
      rcases List.getElem?_eq_some_iff.mp hr with ⟨h, _⟩
      exact h
    have hlen2 : (rows.take env.top_n).length = env.top_n := by
      simp [List.length_take]
      omega
    rw [heq]
    show (List.map blend_row _ ++ rows.drop env.top_n)[i]? = _
    rw [List.getElem?_append_right (by rw [List.length_map, hziplen, hlen2]; exact hi),
      List.getElem?_drop]
    rw [List.length_map, hziplen, hlen2]
    have : env.top_n + (i - env.top_n) = i := by omega
    rw [this]
    exact hr

/-- Claim C3 witness: one row, a successful call with overall 3/4 and a
non-empty reasoning — the blended score is `clamp(0.40·(1/2) + 0.60·(3/4))`
and the rationale is the truncated reasoning; metrics report 1 attempted,
1 scored. -/
theorem c3_witness :
    (apply_gpt_scoring c3w_env [c3_row]).1[0]? = some { c3_row with
      selection_probability := clamp_score ((40 : ℚ)/100 * c3_row.selection_probability +
        (60 : ℚ)/100 * clamp_score (3/4))
      why := (str "model says fine").take 200 } ∧
    (apply_gpt_scoring c3w_env [c3_row]).2.jobs_attempted = 1 := by
  have hscore : score_jobs_with_gpt c3w_env.budget c3w_env.elapsed c3w_env.call
      (([c3_row].take c3w_env.top_n).length) = [c3w_env.call 0] := by
    show score_jobs_with_gpt 1 (fun _ => 0) c3w_env.call 1 = [c3w_env.call 0]
    norm_num [score_jobs_with_gpt, score_jobs_loop]
  have h := c3_blend_refinement c3w_env [c3_row] rfl rfl (by simp)
  refine ⟨?_, ?_⟩
  · have hmain := (h.2.1 0 c3_row (c3w_env.call 0) rfl (by norm_num [c3w_env])
      (by rw [hscore]; rfl)).1 rfl
    rw [hmain]
    norm_num [c3w_env, strTruthy]
    intro hcontra
    exact absurd hcontra (by decide)
  · rw [h.1.1]
    rfl

/-- Claim C6 counterexample: two candidates with identical final scores
and identical sub-scores, candidate id 1 named "a" created later
(ordinal 5) and candidate id 2 named "b" created earlier (ordinal 1).
The candidate ranker orders them by creation time ascending, so the row
named "b" (id 2) ranks ahead of the row named "a" (id 1) — the final
tie-break is not a stable textual identifier ascending. -/
theorem c6_counterexample :
    c6_rowX.final_score = c6_rowY.final_score ∧
    c6_rowX.sub_scores = c6_rowY.sub_scores ∧
    c6_rowX.candidate.id < c6_rowY.candidate.id ∧
    c6_rowX.candidate.name = str "a" ∧
    c6_rowY.candidate.name = str "b" ∧
    (ranker_agent [c6_rowX, c6_rowY] 1).map (·.candidate.id) = [2, 1] := by
  refine ⟨rfl, rfl, by norm_num [c6_rowX, c6_rowY], rfl, rfl, ?_⟩
  norm_num [ranker_agent, List.insertionSort, List.orderedInsert, cand_rank_le, lex2,
    assign_ranks, c6_rowX, c6_rowY, srow0]

/-- Claim C6 (amended): both rankers assign ranks that are exactly the
contiguous sequence 1..N; the candidate ranker sorts by final score
descending, coding-fit descending, experience-fit descending, then
candidate creation time ascending (the ranker fallback by creation time
then id); the job-matching ranker sorts by selection probability
descending, publication and creation ordinals descending, then the
textual job id ascending — so with identical numeric keys the job with
id "a" ranks ahead of the job with id "b". -/
theorem c6_ranker_order :
    (∀ (rows : List ScoredRow) (openings : Nat),
      (ranker_agent rows openings).map (·.rank) = List.range' 1 rows.length) ∧
    (∀ (rows : List ScoredRow) (openings : Nat),
      (ranker_fallback rows openings).map (·.rank) = List.range' 1 rows.length) ∧
    (∀ (rows : List ScoredRow) (openings : Nat),
      (ranker_agent rows openings).Pairwise cand_rank_le) ∧
    (∀ (rows : List MatchRow),
      (List.insertionSort job_rank_le rows).Pairwise job_rank_le) ∧
    (List.insertionSort job_rank_le [c6_jobrow_b, c6_jobrow_a]).map (·.job.job_id) =
      [str "a", str "b"] ∧
    (∀ (jobs : List Job) (prefs : Preferences) (skills : List Str) (env : GptEnv),
      (run_agent_pipeline jobs prefs skills env).top_jobs.map (·.rank) =
        List.range' 1 (run_agent_pipeline jobs prefs skills env).total_ranked) := by
  refine ⟨?_, ?_, ?_, ?_, ?_, ?_⟩
  · intro rows openings
    unfold ranker_agent
    rw [assign_ranks_map_rank, List.length_insertionSort]
  · intro rows openings
    unfold ranker_fallback
    rw [assign_ranks_map_rank, List.length_insertionSort]
  · intro rows openings
    unfold ranker_agent
    exact assign_ranks_pairwise (R := cand_rank_le) (fun a b i j s t h => h) openings 1
      (List.insertionSort cand_rank_le rows) (List.sorted_insertionSort cand_rank_le rows)
  · intro rows
    exact List.sorted_insertionSort job_rank_le rows
  · norm_num [List.insertionSort, List.orderedInsert, job_rank_le, lex2,
      c6_jobrow_a, c6_jobrow_b, c3_row, job0]
    decide
  · intro jobs prefs skills env
    unfold run_agent_pipeline
    simp only
    rw [enumerate_top_jobs_map_rank]

/-- Claim C2: invoking either pipeline entry point on a COMPLETED or
FAILED run returns the run with no field changed, touches no result
table and appends no trace — terminal idempotence of both variants. -/
theorem c2_terminal_idempotent :
    (∀ (maxAttempts : Nat) (run : CRRun) (pref : Option RecruiterPref)
        (candidates : List JobCandidate) (oracle : JobCandidate → StageOracle)
        (rankerRaised : Bool) (modelName : Str) (now : Nat),
      run.status = CRStatus.COMPLETED ∨ run.status = CRStatus.FAILED →
        run_candidate_ranking_for_run maxAttempts run pref candidates oracle rankerRaised
          modelName now = ⟨run, none, []⟩) ∧
    (∀ (run : MatchingRun) (catalog : List Job) (env : GptEnv) (now : Nat),
      run.status = MRStatus.COMPLETED ∨ run.status = MRStatus.FAILED →
        run_matching_for_run run catalog env now = ⟨run, none⟩) := by
  constructor
  · intro maxAttempts run pref candidates oracle rankerRaised modelName now h
    unfold run_candidate_ranking_for_run
    rw [if_pos h]
  · intro run catalog env now h
    unfold run_matching_for_run
    rw [if_pos h]

/-- Claim C2 witness: a COMPLETED candidate-ranking run and a FAILED
matching run are returned unchanged with nothing written. -/
theorem c2_witness :
    run_candidate_ranking_for_run 3 c2_cr_run none [] (fun _ => fail_oracle) false [] 0 =
      ⟨c2_cr_run, none, []⟩ ∧
    run_matching_for_run c2_m_run [] gpt_disabled_env 0 = ⟨c2_m_run, none⟩ :=
  ⟨c2_terminal_idempotent.1 3 c2_cr_run none [] (fun _ => fail_oracle) false [] 0 (Or.inl rfl),
    c2_terminal_idempotent.2 c2_m_run [] gpt_disabled_env 0 (Or.inr rfl)⟩

/-- Claim C9 counterexample: an exception escaping the matching pipeline
while the run was FILTERING (its `completed_at` still unset). The task's
`except` branch marks the run FAILED with an error code and message, but
saves only `status`/`error_code`/`error_message`, so `completed_at`
remains `none` — not set as the claim requires. -/
theorem c9_counterexample :
    (run_matching_pipeline (some c9_run) [] gpt_disabled_env (some (str "boom", c9_state)) 0).run =
      some (mark_run_failed_task c9_state (str "boom")) ∧
    (mark_run_failed_task c9_state (str "boom")).status = .FAILED ∧
    (mark_run_failed_task c9_state (str "boom")).error_code = str "AGENT_PIPELINE_ERROR" ∧
    (mark_run_failed_task c9_state (str "boom")).error_message = str "boom" ∧
    (mark_run_failed_task c9_state (str "boom")).completed_at = none := by
  refine ⟨?_, rfl, rfl, rfl, rfl⟩
  simp [run_matching_pipeline, c9_run]

/-- Claim C9 (amended): an unhandled exception escaping the job-matching
pipeline transitions the run to FAILED with the error code
`AGENT_PIPELINE_ERROR` and the exception text recorded, and the task
re-raises; `completed_at` is left exactly as it was when the exception
escaped (the wrapper does not set it). The candidate-ranking variant's
input-error failure path (missing recruiter preference) records its
error code/message and does set `completed_at`. -/
theorem c9_failed_run_marking :
    (∀ (run : MatchingRun) (catalog : List Job) (env : GptEnv) (msg : Str)
        (state : MatchingRun) (now : Nat),
      run.status ≠ MRStatus.COMPLETED → run.status ≠ MRStatus.FAILED →
        (run_matching_pipeline (some run) catalog env (some (msg, state)) now).run =
          some (mark_run_failed_task state msg) ∧
        (run_matching_pipeline (some run) catalog env (some (msg, state)) now).reraised = true ∧
        (mark_run_failed_task state msg).status = .FAILED ∧
        (mark_run_failed_task state msg).error_code = str "AGENT_PIPELINE_ERROR" ∧
        (mark_run_failed_task state msg).error_message = msg ∧
        (mark_run_failed_task state msg).completed_at = state.completed_at) ∧
    (∀ (maxAttempts : Nat) (run : CRRun) (candidates : List JobCandidate)
        (oracle : JobCandidate → StageOracle) (rankerRaised : Bool) (modelName : Str) (now : Nat),
      run.status ≠ CRStatus.COMPLETED → run.status ≠ CRStatus.FAILED →
        (run_candidate_ranking_for_run maxAttempts run none candidates oracle rankerRaised
          modelName now).run = { run with
            status := .FAILED
            error_code := str "MISSING_PREFERENCE"
            error_message := str "Recruiter preference not found for the job."
            completed_at := some now }) := by
  constructor
  · intro run catalog env msg state now h1 h2
    have hcond : ¬(run.status = MRStatus.COMPLETED ∨ run.status = MRStatus.FAILED) := by
      simp [h1, h2]
    refine ⟨?_, ?_, rfl, rfl, rfl, rfl⟩
    · simp [run_matching_pipeline, hcond]
    · simp [run_matching_pipeline, hcond]
  · intro maxAttempts run candidates oracle rankerRaised modelName now h1 h2
    have hcond : ¬(run.status = CRStatus.COMPLETED ∨ run.status = CRStatus.FAILED) := by
      simp [h1, h2]
    simp [run_candidate_ranking_for_run, hcond]

/-- Claim C9 witness: a PENDING run failing mid-filtering, and a PENDING
candidate-ranking run with no recruiter preference. -/
theorem c9_witness :
    (run_matching_pipeline (some c9_run) [] gpt_disabled_env (some (str "boom", c9_state)) 0).reraised = true ∧
    (run_candidate_ranking_for_run 3 c1_run none [c1_cand] (fun _ => fail_oracle) false []
      5).run.completed_at = some 5 := by
  constructor
  · exact (c9_failed_run_marking.1 c9_run [] gpt_disabled_env (str "boom") c9_state 0
      (by decide) (by decide)).2.1
  · rw [c9_failed_run_marking.2 3 c1_run [c1_cand] (fun _ => fail_oracle) false [] 5
      (by decide) (by decide)]

theorem ranked_countP (q : JobCandidate → Bool) (scored : List ScoredRow) (o : Nat) (rrb : Bool) :
    ((if rrb then ranker_fallback scored o else ranker_agent scored o).countP
      (fun r => q r.candidate)) = scored.countP (fun r => q r.candidate) := by
  cases rrb
  · show (ranker_agent scored o).countP _ = _
    unfold ranker_agent
    rw [assign_ranks_countP]
    exact (List.perm_insertionSort cand_rank_le scored).countP_eq _
  · show (ranker_fallback scored o).countP _ = _
    unfold ranker_fallback
    rw [assign_ranks_countP]
    exact (List.perm_insertionSort cand_fallback_le scored).countP_eq _

/-- Claim C1: each stage is attempted at most `K+1` times (at most `K+1`
non-SKIPPED trace events); when every attempt fails the fallback output
is substituted and the final persisted trace event is SKIPPED with the
fallback marker; and a non-terminal run with a recruiter preference
produces exactly one result row per candidate — in particular also for a
candidate whose every retry of every stage fails, since the property
holds for every stage oracle. -/
theorem c1_retry_fallback_one_row :
    (∀ (α : Type) (retries : Nat) (stage agent : Str) (cid : Option Nat)
        (fn : Nat → Except Str α) (fallback : α),
      (execute_stage_with_retry (STAGE_MAX_ATTEMPTS retries) stage agent cid fn
          fallback).traces.countP (fun t => t.status ≠ TraceStatus.SKIPPED) ≤
        STAGE_MAX_ATTEMPTS retries) ∧
    (∀ (α : Type) (maxAttempts : Nat) (stage agent : Str) (cid : Option Nat)
        (fn : Nat → Except Str α) (fallback : α),
      (∀ (i : Nat) (out : α), fn i ≠ .ok out) →
        (execute_stage_with_retry maxAttempts stage agent cid fn fallback).output = fallback ∧
        (execute_stage_with_retry maxAttempts stage agent cid fn fallback).ok = false ∧
        (execute_stage_with_retry maxAttempts stage agent cid fn fallback).fallback_applied = true ∧
        ∃ t, (execute_stage_with_retry maxAttempts stage agent cid fn
            fallback).traces.getLast? = some t ∧
          t.status = TraceStatus.SKIPPED ∧ t.fallback_applied = true ∧
          t.error_code = str "STAGE_FALLBACK_APPLIED") ∧
    (∀ (maxAttempts : Nat) (run : CRRun) (pref : RecruiterPref)
        (candidates : List JobCandidate) (oracle : JobCandidate → StageOracle)
        (rankerRaised : Bool) (modelName : Str) (now : Nat),
      run.status ≠ CRStatus.COMPLETED → run.status ≠ CRStatus.FAILED →
      (candidates.map (·.id)).Nodup →
        ∃ rs, (run_candidate_ranking_for_run maxAttempts run (some pref) candidates oracle
            rankerRaised modelName now).results = some rs ∧
          ∀ c ∈ candidates, rs.countP (fun r => r.candidate_id == c.id) = 1) := by
  refine ⟨?_, ?_, ?_⟩
  · intro α retries stage agent cid fn fallback
    have hlen := stage_attempt_loop_length stage agent cid (STAGE_MAX_ATTEMPTS retries) fn 1
      (STAGE_MAX_ATTEMPTS retries)
    unfold execute_stage_with_retry
    rcases hloop : (stage_attempt_loop stage agent cid (STAGE_MAX_ATTEMPTS retries) fn 1
      (STAGE_MAX_ATTEMPTS retries)).1 with _ | outcome
    · show ((stage_attempt_loop stage agent cid (STAGE_MAX_ATTEMPTS retries) fn 1
          (STAGE_MAX_ATTEMPTS retries)).2 ++
          [fallback_trace stage agent cid (STAGE_MAX_ATTEMPTS retries)]).countP
          (fun t => t.status ≠ TraceStatus.SKIPPED) ≤ STAGE_MAX_ATTEMPTS retries
      rw [List.countP_append]
      have hskip : (([fallback_trace stage agent cid (STAGE_MAX_ATTEMPTS retries)] :
          List TraceEvent).countP (fun t => t.status ≠ TraceStatus.SKIPPED)) = 0 := by
        simp [List.countP_cons, fallback_trace]
      rw [hskip]
      simpa using le_trans (List.countP_le_length _) hlen
    · rcases outcome with ⟨out, att⟩
      exact le_trans (List.countP_le_length _) hlen
  · intro α maxAttempts stage agent cid fn fallback hfail
    have hnone := stage_attempt_loop_all_fail stage agent cid maxAttempts fn hfail 1 maxAttempts
    unfold execute_stage_with_retry
    rw [hnone]
    refine ⟨rfl, rfl, rfl, ?_⟩
    exact ⟨_, List.getLast?_concat _, rfl, rfl, rfl⟩
  · intro maxAttempts run pref candidates oracle rankerRaised modelName now h1 h2 hnodup
    have hcond : ¬(run.status = CRStatus.COMPLETED ∨ run.status = CRStatus.FAILED) := by
      simp [h1, h2]
    simp only [run_candidate_ranking_for_run, if_neg hcond]
    refine ⟨_, rfl, ?_⟩
    intro c hc
    rw [List.countP_map]
    show ((if rankerRaised then ranker_fallback _ _ else ranker_agent _ _).countP
      (fun row => row.candidate.id == c.id)) = 1
    rw [ranked_countP (fun cand => cand.id == c.id)]
    show ((candidates.map (fun x => process_candidate maxAttempts (oracle x) x)).map
      Prod.fst).countP (fun r => r.candidate.id == c.id) = 1
    rw [List.map_map, List.countP_map]
    show candidates.countP (fun x => x.id == c.id) = 1
    have hmap : candidates.countP (fun x => x.id == c.id) =
        (candidates.map (·.id)).countP (fun v => v == c.id) := by
      rw [List.countP_map]
      rfl
    rw [hmap]
    show (candidates.map (·.id)).count c.id = 1
    exact List.count_eq_one_of_mem hnodup (List.mem_map_of_mem (·.id) hc)

/-- Claim C1 witness: a pending run with one candidate whose every stage
attempt fails, with `K = 2` retries: the stage envelope returns the
fallback with a final SKIPPED trace, at most 3 attempts are traced, and
the run still produces exactly one result row for the candidate. -/
theorem c1_witness :
    (execute_stage_with_retry (STAGE_MAX_ATTEMPTS 2) (str "B") (str "CollegeTierClassifierAgent")
      (some 11) (fun _ => .error (str "boom")) stage_fallback_b).output = stage_fallback_b ∧
    (execute_stage_with_retry (STAGE_MAX_ATTEMPTS 2) (str "B") (str "CollegeTierClassifierAgent")
      (some 11) (fun _ => .error (str "boom")) stage_fallback_b).traces.countP
        (fun t => t.status ≠ TraceStatus.SKIPPED) ≤ 3 ∧
    (run_candidate_ranking_for_run (STAGE_MAX_ATTEMPTS 2) c1_run (some c5_pref) [c1_cand]
      (fun _ => fail_oracle) false [] 5).results.isSome = true ∧
    (((run_candidate_ranking_for_run (STAGE_MAX_ATTEMPTS 2) c1_run (some c5_pref) [c1_cand]
        (fun _ => fail_oracle) false [] 5).results.getD []).countP
      (fun r => r.candidate_id == c1_cand.id)) = 1 := by
  refine ⟨?_, ?_, ?_, ?_⟩
  · exact (c1_retry_fallback_one_row.2.1 StageBOut (STAGE_MAX_ATTEMPTS 2) (str "B")
      (str "CollegeTierClassifierAgent") (some 11) (fun _ => .error (str "boom"))
      stage_fallback_b (fun i out h => by simp at h)).1
  · exact c1_retry_fallback_one_row.1 StageBOut 2 (str "B") (str "CollegeTierClassifierAgent")
      (some 11) (fun _ => .error (str "boom")) stage_fallback_b
  · rcases c1_retry_fallback_one_row.2.2 (STAGE_MAX_ATTEMPTS 2) c1_run c5_pref [c1_cand]
      (fun _ => fail_oracle) false [] 5 (by decide) (by decide) (by decide) with ⟨rs, hrs, hone⟩
    rw [hrs]
    rfl
  · rcases c1_retry_fallback_one_row.2.2 (STAGE_MAX_ATTEMPTS 2) c1_run c5_pref [c1_cand]
      (fun _ => fail_oracle) false [] 5 (by decide) (by decide) (by decide) with ⟨rs, hrs, hone⟩
    rw [hrs]
    exact hone c1_cand (List.mem_singleton_self c1_cand)
